import Mathlib

/-!
Verification of the SimpleReactCam backend services.

This file gives a shallow embedding, in Lean 4, of the three stateless HTTP
handlers of the repository (API gateway, image processor, message generator)
together with the alternate "ai-housekeeping-advisor" deploy variants of the
image processor and message generator, and proves properties of the embedded
code.

Modelling conventions:
* Python `dict`/JSON values are modelled by the inductive type `Json`;
  a parsed request body is an `Option Json` (`none` models an absent or
  unparseable body, as produced by `request.get_json(silent=True)`).
* Python exceptions are modelled by `Except PyErr`; the exception class is
  carried so that `except ValueError` / `except Exception` clauses can be
  embedded faithfully.
* Calls to external HTTP services and to the vision/LLM providers are opaque
  in the source (out of scope per the spec); their outcomes are passed to the
  embedded handlers as explicit parameters.
* Python floats (vision scores, etc.) are modelled as exact rationals; the
  bit-level float representation is not modelled.
* `str()` of a non-string container (only reachable on error paths that no
  claim inspects) renders strings without Python's quote-escaping rules.
-/

namespace SimpleReactCam

/-- JSON values, as produced by parsing a request body in Python. -/
inductive Json where
  | null
  | bool (b : Bool)
  | str (s : String)
  | num (q : ℚ)
  | arr (elems : List Json)
  | obj (fields : List (String × Json))

/-- Python exception values, tagged with the exception class so that
`except` clauses that catch specific classes can be modelled. -/
inductive PyErr where
  | valueError (msg : String)
  | typeError (msg : String)
  | attributeError (msg : String)
  | keyError (key : String)
  | requestException (msg : String)
  | other (msg : String)
  deriving DecidableEq, Repr

/-- Python `str(e)` for an exception `e` (for `KeyError` Python renders the
repr of the missing key, hence the quotes). -/
def PyErr.msg : PyErr → String
  | .valueError m => m
  | .typeError m => m
  | .attributeError m => m
  | .keyError k => "'" ++ k ++ "'"
  | .requestException m => m
  | .other m => m

/-- Lowercase an ASCII letter, as Python `str.lower` does character-wise. -/
def charLower (c : Char) : Char :=
  if 65 ≤ c.toNat ∧ c.toNat ≤ 90 then Char.ofNat (c.toNat + 32) else c

/-- Python `s.lower()` (ASCII; the source only lowercases ASCII text). -/
def strLower (s : String) : String := String.mk (s.toList.map charLower)

/-- Does `pat` occur as a contiguous sublist of `hay`?  Used to model the
Python substring test `pat in hay`. -/
def listContainsSub (pat : List Char) : List Char → Bool
  | [] => pat.isEmpty
  | c :: rest => pat.isPrefixOf (c :: rest) || listContainsSub pat rest

/-- Python `pat in s` for strings (substring containment). -/
def strContains (s pat : String) : Bool := listContainsSub pat.toList s.toList

/-- Python `sep.join(xs)`. -/
def strJoin (sep : String) : List String → String
  | [] => ""
  | [x] => x
  | x :: y :: rest => x ++ sep ++ strJoin sep (y :: rest)

/-- Python truthiness of a JSON value (`bool(x)`). -/
def Json.truthy : Json → Bool
  | .null => false
  | .bool b => b
  | .str s => ¬ s.isEmpty
  | .num q => q ≠ 0
  | .arr xs => ¬ xs.isEmpty
  | .obj fs => ¬ fs.isEmpty

/-- Python truthiness of a possibly absent body (`None` is falsy). -/
def truthyOpt : Option Json → Bool
  | none => false
  | some j => j.truthy

mutual

/-- Python `repr` of a JSON value (quote-escaping inside strings is not
modelled; no claim depends on it). -/
def Json.pyRepr : Json → String
  | .null => "None"
  | .bool true => "True"
  | .bool false => "False"
  | .str s => "'" ++ s ++ "'"
  | .num q => toString q
  | .arr xs => "[" ++ Json.pyReprList xs ++ "]"
  | .obj fs => "\x7b" ++ Json.pyReprFields fs ++ "\x7d"

/-- Comma-joined reprs of the elements of a Python list. -/
def Json.pyReprList : List Json → String
  | [] => ""
  | [x] => x.pyRepr
  | x :: y :: rest => x.pyRepr ++ ", " ++ Json.pyReprList (y :: rest)

/-- Comma-joined reprs of the entries of a Python dict. -/
def Json.pyReprFields : List (String × Json) → String
  | [] => ""
  | [(k, v)] => "'" ++ k ++ "': " ++ v.pyRepr
  | (k, v) :: e :: rest => "'" ++ k ++ "': " ++ v.pyRepr ++ ", " ++ Json.pyReprFields (e :: rest)

end

/-- Python `str(x)` of a JSON value (`str` of a `str` is the string itself;
containers fall back to `repr`). -/
def Json.pyStr : Json → String
  | .str s => s
  | v => v.pyRepr

/-- Python `==` between a JSON value and a string literal: only a `str`
can compare equal to a `str`. -/
def Json.eqStr (j : Json) (s : String) : Bool :=
  match j with
  | .str t => t = s
  | _ => false

/-- Python `key in x` for a parsed JSON value `x`: key membership for a
dict, element equality for a list, substring test for a string, and a
`TypeError` for the remaining types. -/
def Json.pyContains (j : Json) (key : String) : Except PyErr Bool :=
  match j with
  | .obj fs => .ok (fs.any (fun p => p.1 = key))
  | .arr xs => .ok (xs.any (fun x => x.eqStr key))
  | .str s => .ok (strContains s key)
  | .num _ => .error (.typeError "argument of type 'float' is not iterable")
  | .bool _ => .error (.typeError "argument of type 'bool' is not iterable")
  | .null => .error (.typeError "argument of type 'NoneType' is not iterable")

/-- Python `x[key]` for a string key: dict lookup (first binding; Python
dicts have unique keys), `KeyError` when absent, `TypeError` otherwise. -/
def Json.pyIndex (j : Json) (key : String) : Except PyErr Json :=
  match j with
  | .obj fs =>
    match fs.lookup key with
    | some v => .ok v
    | none => .error (.keyError key)
  | .arr _ => .error (.typeError "list indices must be integers or slices, not str")
  | .str _ => .error (.typeError "string indices must be integers")
  | _ => .error (.typeError "object is not subscriptable")

/-- Python `x.get(key, default)`: dict method, `AttributeError` when `x`
is not a dict. -/
def Json.pyGet (j : Json) (key : String) (default : Json) : Except PyErr Json :=
  match j with
  | .obj fs =>
    match fs.lookup key with
    | some v => .ok v
    | none => .ok default
  | .arr _ => .error (.attributeError "'list' object has no attribute 'get'")
  | .str _ => .error (.attributeError "'str' object has no attribute 'get'")
  | .num _ => .error (.attributeError "'float' object has no attribute 'get'")
  | .bool _ => .error (.attributeError "'bool' object has no attribute 'get'")
  | .null => .error (.attributeError "'NoneType' object has no attribute 'get'")

/-- An HTTP response: status code, JSON body (a plain-text body such as the
empty preflight body is modelled as a JSON string), and the headers that the
handler sets explicitly. -/
structure HttpResponse where
  status : Nat
  body : Json
  headers : List (String × String)

/-- Set a response header: replace an existing entry, else append. -/
def setHeader (hs : List (String × String)) (k v : String) : List (String × String) :=
  if hs.any (fun p => p.1 = k) then hs.map (fun p => if p.1 = k then (k, v) else p)
  else hs ++ [(k, v)]

/-- Render an optional error message the way `jsonify` renders `None` or a
string. -/
def optStrJson : Option String → Json
  | none => .null
  | some m => .str m

namespace ApiGateway

/-- Allowed scenario tags (`VALID_SCENARIOS` in `api-gateway/src/main.py`). -/
def VALID_SCENARIOS : List String := ["plant", "closet", "fridge"]

/-- Embedding of `validate_request` from `api-gateway/src/main.py` (lines
26-52).  A body that is not a mapping can raise a `TypeError` at the
membership or indexing steps, which the handler's outer `except` catches. -/
def validate_request (request_json : Option Json) : Except PyErr (Bool × Option String) := do
  if ¬ truthyOpt request_json then return (false, some "Request body is empty")
  let j := request_json.getD .null
  let hasScenario ← j.pyContains "scenario"
  if ¬ hasScenario then return (false, some "Missing 'scenario' field in request")
  let scen ← j.pyIndex "scenario"
  if ¬ VALID_SCENARIOS.any (fun v => scen.eqStr v) then
    return (false, some ("Invalid 'scenario' value. Must be one of: " ++
      strJoin ", " VALID_SCENARIOS))
  let hasImage ← j.pyContains "image_data"
  if ¬ hasImage then return (false, some "Missing 'image_data' field in request")
  let img ← j.pyIndex "image_data"
  if ¬ img.truthy then return (false, some "Empty 'image_data' field in request")
  return (true, none)

/-- Outcome of one `requests.post` call: a raised `requests.RequestException`
(which in current `requests` also covers a body that fails to parse as JSON),
or a response with a status code, raw text, and parsed JSON body. -/
inductive PostResult where
  | exn (msg : String)
  | resp (status : Nat) (text : String) (body : Json)

/-- Embedding of `call_image_processor` (lines 55-99): the `try` block catches
only `requests.RequestException`; any other exception propagates. -/
def call_image_processor (url : String) (post : PostResult) :
    Except PyErr (Bool × Json × Option String) :=
  if url = "" then .ok (false, .obj [], some "Image processor URL not configured")
  else
    let attempt : Except PyErr (Bool × Json × Option String) := do
      match post with
      | .exn e => .error (.requestException e)
      | .resp status text body =>
        if status ≠ 200 then
          return (false, .obj [], some ("Image processor error: " ++ text))
        let success ← body.pyGet "success" (.bool false)
        if ¬ success.truthy then
          let errv ← body.pyGet "error" (.str "Unknown error")
          return (false, .obj [], some ("Image processor error: " ++ errv.pyStr))
        let data ← body.pyGet "data" (.obj [])
        return (true, data, none)
    match attempt with
    | .error (.requestException e) =>
      .ok (false, .obj [], some ("Error communicating with image processor: " ++ e))
    | other => other

/-- Embedding of `call_message_generator` (lines 102-150), same pattern as
`call_image_processor`. -/
def call_message_generator (url : String) (post : PostResult) :
    Except PyErr (Bool × Json × Option String) :=
  if url = "" then .ok (false, .str "", some "Message generator URL not configured")
  else
    let attempt : Except PyErr (Bool × Json × Option String) := do
      match post with
      | .exn e => .error (.requestException e)
      | .resp status text body =>
        if status ≠ 200 then
          return (false, .str "", some ("Message generator error: " ++ text))
        let success ← body.pyGet "success" (.bool false)
        if ¬ success.truthy then
          let errv ← body.pyGet "error" (.str "Unknown error")
          return (false, .str "", some ("Message generator error: " ++ errv.pyStr))
        let advice ← body.pyGet "advice" (.str "")
        return (true, advice, none)
    match attempt with
    | .error (.requestException e) =>
      .ok (false, .str "", some ("Error communicating with message generator: " ++ e))
    | other => other

/-- An inbound HTTP request seen by the gateway: method, optional `Origin`
header, and the parsed JSON body (`none` when absent or unparseable). -/
structure GwRequest where
  method : String
  origin : Option String
  body : Option Json

/-- Embedding of `handle_cors` (lines 153-177): echo the request's `Origin`
header (default `"*"`) and set the three fixed CORS headers. -/
def handle_cors (req : GwRequest) (resp : HttpResponse) : HttpResponse :=
  let origin := req.origin.getD "*"
  { resp with
    headers := setHeader (setHeader (setHeader (setHeader resp.headers
      "Access-Control-Allow-Origin" origin)
      "Access-Control-Allow-Methods" "POST, OPTIONS")
      "Access-Control-Allow-Headers" "Content-Type, Authorization")
      "Access-Control-Allow-Credentials" "true" }

/-- The body `jsonify({"success": False, "error": e})`. -/
def jsonError (e : Option String) : Json :=
  .obj [("success", .bool false), ("error", optStrJson e)]

/-- The `try` block of `api_gateway` (lines 206-252); each `return` site
applies `handle_cors` as in the source, and a raised exception is the
`.error` case. -/
def api_gateway_try (ipUrl mgUrl : String) (req : GwRequest) (ipPost mgPost : PostResult) :
    Except PyErr HttpResponse := do
  let (is_valid, error_message) ← validate_request req.body
  if ¬ is_valid then
    return handle_cors req ⟨400, jsonError error_message, []⟩
  let j := req.body.getD .null
  let _scenario ← j.pyIndex "scenario"
  let _image_data ← j.pyIndex "image_data"
  let (success1, _analysis_result, error1) ← call_image_processor ipUrl ipPost
  if ¬ success1 then
    return handle_cors req ⟨502, jsonError error1, []⟩
  let (success2, advice, error2) ← call_message_generator mgUrl mgPost
  if ¬ success2 then
    return handle_cors req ⟨502, jsonError error2, []⟩
  return handle_cors req ⟨200, .obj [("success", .bool true), ("advice", advice)], []⟩

/-- Embedding of the `api_gateway` entry point (lines 180-262). -/
def api_gateway (ipUrl mgUrl : String) (req : GwRequest) (ipPost mgPost : PostResult) :
    HttpResponse :=
  if req.method = "OPTIONS" then handle_cors req ⟨204, .str "", []⟩
  else if req.method ≠ "POST" then
    handle_cors req ⟨405,
      .obj [("success", .bool false), ("error", .str "Only POST requests are supported")], []⟩
  else
    match api_gateway_try ipUrl mgUrl req ipPost mgPost with
    | .ok r => r
    | .error e => handle_cors req ⟨500, jsonError (some ("Internal server error: " ++ e.msg)), []⟩

end ApiGateway

/-- Value of a base64-alphabet character (`A-Z`, `a-z`, `0-9`, `+`, `/`),
or `none` for every other character. -/
def b64val (c : Char) : Option Nat :=
  let n := c.toNat
  if 65 ≤ n ∧ n ≤ 90 then some (n - 65)
  else if 97 ≤ n ∧ n ≤ 122 then some (n - 97 + 26)
  else if 48 ≤ n ∧ n ≤ 57 then some (n - 48 + 52)
  else if n = 43 then some 62
  else if n = 47 then some 63
  else none

/-- Embedding of CPython's `binascii.a2b_base64` in its default non-strict
mode, as called by `base64.b64decode(s)`: characters outside the alphabet are
skipped; a `=` at quad position ≥ 2 counts towards padding and completes the
quad (discarding the rest of the input); a dangling quad at end of input is
an error.  State: remaining input, quad position, pending bits, pad count,
output bytes (reversed). -/
def a2b_base64 : List Char → Nat → Nat → Nat → List Nat → Except PyErr (List Nat)
  | [], quadPos, _, _, acc =>
    if quadPos = 0 then .ok acc.reverse
    else if quadPos = 1 then
      .error (.valueError ("Invalid base64-encoded string: number of data characters (" ++
        toString (acc.length / 3 * 4 + 1) ++ ") cannot be 1 more than a multiple of 4"))
    else .error (.valueError "Incorrect padding")
  | c :: rest, quadPos, leftchar, pads, acc =>
    if c = '=' then
      if 2 ≤ quadPos then
        if 4 ≤ quadPos + (pads + 1) then .ok acc.reverse
        else a2b_base64 rest quadPos leftchar (pads + 1) acc
      else a2b_base64 rest quadPos leftchar pads acc
    else
      match b64val c with
      | none => a2b_base64 rest quadPos leftchar pads acc
      | some v =>
        match quadPos with
        | 0 => a2b_base64 rest 1 v 0 acc
        | 1 => a2b_base64 rest 2 (v % 16) 0 ((leftchar * 4 + v / 16) :: acc)
        | 2 => a2b_base64 rest 3 (v % 4) 0 ((leftchar * 16 + v / 4) :: acc)
        | _ => a2b_base64 rest 0 0 0 ((leftchar * 64 + v) :: acc)

/-- Embedding of `base64.b64decode` on a `str` argument with the default
`validate=False`: the string is ASCII-encoded, then fed to non-strict
`a2b_base64`. -/
def b64decode (s : String) : Except PyErr (List Nat) :=
  if s.toList.all (fun c => c.toNat < 128) then a2b_base64 s.toList 0 0 0 []
  else .error (.valueError "string argument should contain only ASCII characters")

/-- Python `s.split(sep)` for a non-empty separator, on character lists:
split at every non-overlapping occurrence, scanning left to right.  The
`skip` counter counts the characters of an already matched separator that
remain to be consumed (so the recursion is structural on the input). -/
def pySplitAux (sep : List Char) : List Char → List Char → Nat → List (List Char)
  | [], acc, _ => [acc.reverse]
  | c :: rest, acc, skip =>
    match skip with
    | n + 1 => pySplitAux sep rest acc n
    | 0 =>
      if sep.isPrefixOf (c :: rest) then
        acc.reverse :: pySplitAux sep rest [] (sep.length - 1)
      else pySplitAux sep rest (c :: acc) 0

/-- Python `s.split(sep)` for strings. -/
def pySplit (s sep : String) : List String :=
  (pySplitAux sep.toList s.toList [] 0).map String.mk

namespace ImageProcessor

/-- Fixed confidence threshold (`MIN_CONFIDENCE_SCORE` in
`image-processor/src/main.py`). -/
def MIN_CONFIDENCE_SCORE : ℚ := 0.6

/-- Embedding of `decode_image` (lines 61-82): strip everything up to a
`"base64,"` marker via `split("base64,")[1]` when the marker occurs, then
base64-decode; any exception is re-raised as a `ValueError`. -/
def decode_image (image_data : String) : Except PyErr (List Nat) :=
  let d := if strContains image_data "base64," then
      ((pySplit image_data "base64,").get? 1).getD ""
    else image_data
  match b64decode d with
  | .ok bs => .ok bs
  | .error e => .error (.valueError ("Invalid image data: " ++ e.msg))

/-- One label annotation returned by the vision provider. -/
structure VisionLabel where
  description : String
  score : ℚ
  deriving DecidableEq, Repr

/-- One localized object annotation returned by the vision provider. -/
structure VisionObject where
  name : String
  score : ℚ
  deriving DecidableEq, Repr

/-- The provider response consumed by `analyze_image`: label annotations,
localized object annotations, and text annotations (descriptions). -/
structure VisionResponse where
  label_annotations : List VisionLabel
  localized_object_annotations : List VisionObject
  text_annotations : List String

/-- Round-half-to-even on an exact rational, the rounding Python's `round`
applies to the (here exactly represented) score values. -/
def roundHalfEven (q : ℚ) : ℤ :=
  if q - (⌊q⌋ : ℚ) < 1/2 then ⌊q⌋
  else if 1/2 < q - (⌊q⌋ : ℚ) then ⌊q⌋ + 1
  else if ⌊q⌋ % 2 = 0 then ⌊q⌋ else ⌊q⌋ + 1

/-- Python `round(x, 2)` on an exact rational score. -/
def round2 (q : ℚ) : ℚ := (roundHalfEven (q * 100) : ℚ) / 100

/-- The structured analysis result built by `analyze_image`. -/
structure AnalysisOut where
  labels : List VisionLabel
  objects : List VisionObject
  text : String
  deriving Repr

/-- Embedding of `analyze_image` (lines 85-141): the provider call outcome is
a parameter; every raised exception is re-raised unchanged.  Labels and
objects with `score >= MIN_CONFIDENCE_SCORE` are kept with their scores
rounded to 2 decimal places; the text is the first text annotation or `""`. -/
def analyze_image (_image_bytes : List Nat) (visionOutcome : Except PyErr VisionResponse) :
    Except PyErr AnalysisOut :=
  match visionOutcome with
  | .error e => .error e
  | .ok resp =>
    .ok
      { labels := (resp.label_annotations.filter
            (fun l => MIN_CONFIDENCE_SCORE ≤ l.score)).map
            (fun l => ⟨l.description, round2 l.score⟩)
        objects := (resp.localized_object_annotations.filter
            (fun o => MIN_CONFIDENCE_SCORE ≤ o.score)).map
            (fun o => ⟨o.name, round2 o.score⟩)
        text := resp.text_annotations.headD "" }

/-- Embedding of the image processor's `validate_request` (lines 144-164). -/
def validate_request (request_json : Option Json) : Except PyErr (Bool × Option String) := do
  if ¬ truthyOpt request_json then return (false, some "Request body is empty")
  let j := request_json.getD .null
  let hasImage ← j.pyContains "image_data"
  if ¬ hasImage then return (false, some "Missing 'image_data' field in request")
  let img ← j.pyIndex "image_data"
  if ¬ img.truthy then return (false, some "Empty 'image_data' field in request")
  return (true, none)

/-- An inbound request to the image processor. -/
structure IpRequest where
  method : String
  body : Option Json

/-- JSON encoding of an analysis result, as `jsonify` serialises the
dictionary built by `analyze_image`. -/
def analysisOutJson (a : AnalysisOut) : Json :=
  .obj [("labels", .arr (a.labels.map (fun l =>
            .obj [("description", .str l.description), ("score", .num l.score)]))),
        ("objects", .arr (a.objects.map (fun o =>
            .obj [("name", .str o.name), ("score", .num o.score)]))),
        ("text", .str a.text)]

/-- The `try` block of `process_image` (lines 188-210); `image_data` must be
a string for `decode_image` (a non-string would fail inside Python string
operations; the handler is only ever reached with string image data). -/
def process_image_try (req : IpRequest) (apiKeyOutcome : Except PyErr String)
    (visionOutcome : Except PyErr VisionResponse) : Except PyErr HttpResponse := do
  let (is_valid, error_message) ← validate_request req.body
  if ¬ is_valid then
    return ⟨400, .obj [("success", .bool false), ("data", .null),
      ("error", optStrJson error_message)], []⟩
  let j := req.body.getD .null
  let image_data ← j.pyIndex "image_data"
  let image_bytes ← decode_image image_data.pyStr
  let _api_key ← apiKeyOutcome
  let analysis_results ← analyze_image image_bytes visionOutcome
  return ⟨200, .obj [("success", .bool true), ("data", analysisOutJson analysis_results),
    ("error", .null)], []⟩

/-- Embedding of the `process_image` entry point (lines 167-224):
`except ValueError` yields a 400 with the message, `except Exception` a 500. -/
def process_image (req : IpRequest) (apiKeyOutcome : Except PyErr String)
    (visionOutcome : Except PyErr VisionResponse) : HttpResponse :=
  if req.method ≠ "POST" then
    ⟨405, .obj [("success", .bool false), ("data", .null),
      ("error", .str "Only POST requests are supported")], []⟩
  else
    match process_image_try req apiKeyOutcome visionOutcome with
    | .ok r => r
    | .error (.valueError m) =>
      ⟨400, .obj [("success", .bool false), ("data", .null), ("error", .str m)], []⟩
    | .error e =>
      ⟨500, .obj [("success", .bool false), ("data", .null),
        ("error", .str ("Internal server error: " ++ e.msg))], []⟩

end ImageProcessor

/-- Python `for x in j`: list elements, string characters, dict keys;
`TypeError` for the other types. -/
def Json.pyIterate : Json → Except PyErr (List Json)
  | .arr xs => .ok xs
  | .str s => .ok (s.toList.map (fun c => .str (String.mk [c])))
  | .obj fs => .ok (fs.map (fun p => .str p.1))
  | .num _ => .error (.typeError "'float' object is not iterable")
  | .bool _ => .error (.typeError "'bool' object is not iterable")
  | .null => .error (.typeError "'NoneType' object is not iterable")

/-- Python `key in d` for a dict `d` with string keys: `False` for hashable
non-string keys, `TypeError` for unhashable ones. -/
def Json.pyInDictKeys (j : Json) (keys : List String) : Except PyErr Bool :=
  match j with
  | .str s => .ok (keys.contains s)
  | .arr _ => .error (.typeError "unhashable type: 'list'")
  | .obj _ => .error (.typeError "unhashable type: 'dict'")
  | _ => .ok false

namespace MessageGenerator

/-- Python `f"{x:.2f}"` on an exact rational value. -/
def formatFixed2 (q : ℚ) : String :=
  let m := (ImageProcessor.roundHalfEven (|q| * 100)).toNat
  (if q < 0 then "-" else "") ++ toString (m / 100) ++ "." ++
    (if m % 100 < 10 then "0" else "") ++ toString (m % 100)

/-- Python `format(x, '.2f')` on a JSON value: numbers (and bools, which are
ints in Python) format; strings raise `ValueError`; the rest `TypeError`. -/
def formatF2 : Json → Except PyErr String
  | .num q => .ok (formatFixed2 q)
  | .bool b => .ok (formatFixed2 (if b then 1 else 0))
  | .str _ => .error (.valueError "Unknown format code 'f' for object of type 'str'")
  | .null => .error (.typeError "unsupported format string passed to NoneType.__format__")
  | .arr _ => .error (.typeError "unsupported format string passed to list.__format__")
  | .obj _ => .error (.typeError "unsupported format string passed to dict.__format__")

/-- The `plant` entry of `PROMPT_TEMPLATES` (`message-generator/src/main.py`
lines 29-45), as a function of the three interpolated strings. -/
def plantTemplate (labels objects text : String) : String :=
  "\nあなたは植物ケアの専門家です。提供された画像分析結果に基づいて、実用的で具体的な植物のケアアドバイスを提供してください。\n\n画像分析結果:\n- 検出されたラベル: " ++ labels ++
  "\n- 検出されたオブジェクト: " ++ objects ++
  "\n- 検出されたテキスト: " ++ text ++
  "\n\n以下の点を考慮したアドバイスを提供してください：\n1. 植物の種類と状態（健康状態、成長段階など）\n2. 水やり、日光、肥料に関する具体的なアドバイス\n3. 見られる問題（黄色い葉、害虫など）とその解決策\n4. 季節に応じたケアのヒント\n5. 植物の配置や装飾に関する提案\n\n回答は5つ以内の明確で実行可能なアドバイスにまとめ、箇条書きで提供してください。専門用語は避け、初心者にも理解できる言葉で説明してください。\n"

/-- The `closet` entry of `PROMPT_TEMPLATES` (lines 46-62). -/
def closetTemplate (labels objects text : String) : String :=
  "\nあなたは整理収納の専門家です。提供された画像分析結果に基づいて、クローゼットや収納スペースの整理に関する実用的で具体的なアドバイスを提供してください。\n\n画像分析結果:\n- 検出されたラベル: " ++ labels ++
  "\n- 検出されたオブジェクト: " ++ objects ++
  "\n- 検出されたテキスト: " ++ text ++
  "\n\n以下の点を考慮したアドバイスを提供してください：\n1. スペースの効率的な活用方法\n2. 衣類や小物の分類・整理システム\n3. 季節に応じた収納の切り替え方\n4. 使いやすさと見た目の美しさを両立させる方法\n5. 持続可能な整理整頓の習慣づけ\n\n回答は5つ以内の明確で実行可能なアドバイスにまとめ、箇条書きで提供してください。専門用語は避け、初心者にも理解できる言葉で説明してください。\n"

/-- The `fridge` entry of `PROMPT_TEMPLATES` (lines 63-79). -/
def fridgeTemplate (labels objects text : String) : String :=
  "\nあなたは食品管理と冷蔵庫整理の専門家です。提供された画像分析結果に基づいて、冷蔵庫の整理や食品管理に関する実用的で具体的なアドバイスを提供してください。\n\n画像分析結果:\n- 検出されたラベル: " ++ labels ++
  "\n- 検出されたオブジェクト: " ++ objects ++
  "\n- 検出されたテキスト: " ++ text ++
  "\n\n以下の点を考慮したアドバイスを提供してください：\n1. 食品の適切な配置と保存方法\n2. 食品の鮮度を保つためのヒント\n3. 食品ロスを減らすための工夫\n4. 冷蔵庫の清潔さを保つ方法\n5. 検出された食材を使った簡単なレシピ提案\n\n回答は5つ以内の明確で実行可能なアドバイスにまとめ、箇条書きで提供してください。専門用語は避け、初心者にも理解できる言葉で説明してください。\n"

/-- `PROMPT_TEMPLATES`, in insertion order, each paired with its template. -/
def PROMPT_TEMPLATES : List (String × (String → String → String → String)) :=
  [("plant", plantTemplate), ("closet", closetTemplate), ("fridge", fridgeTemplate)]

/-- The fixed `DEFAULT_ADVICE` literal (lines 82-97). -/
def DEFAULT_ADVICE : String :=
  "\n申し訳ありませんが、提供された画像からは具体的なアドバイスを生成できませんでした。\n以下は一般的なハウスキーピングのヒントです：\n\n1. 定期的な整理整頓：週に一度、使用頻度の低いアイテムを整理し、必要なものだけを手の届く場所に保管しましょう。\n\n2. ゾーン分け：スペースをゾーンに分けて、関連するアイテムをまとめて保管することで、探す手間を省きます。\n\n3. ラベリング：収納ボックスやコンテナにラベルを付けると、中身がすぐにわかり、片付けも簡単になります。\n\n4. 「ワンイン・ワンアウト」ルール：新しいアイテムを購入したら、古いアイテムを一つ処分するルールを設けると、物が増えすぎるのを防げます。\n\n5. 5分ルール：毎日5分だけ片付ける習慣をつけると、大掃除の負担が減り、常に整った空間を維持できます。\n\nより具体的なアドバイスが必要な場合は、別の画像をアップロードしてみてください。\n"

/-- Embedding of `format_analysis_result` (lines 134-156): comma-joined
`"description (score:.2f)"` items for labels, `"name (score:.2f)"` items for
objects, the detected text, each replaced by `"なし"` when empty.
`labelItem` is one item of the labels comprehension. -/
def labelItem (label : Json) : Except PyErr String := do
  let d ← label.pyIndex "description"
  let s ← label.pyIndex "score"
  let s2 ← formatF2 s
  pure (d.pyStr ++ " (" ++ s2 ++ ")")

/-- One `"name (score:.2f)"` item of the objects comprehension. -/
def objectItem (obj : Json) : Except PyErr String := do
  let n ← obj.pyIndex "name"
  let s ← obj.pyIndex "score"
  let s2 ← formatF2 s
  pure (n.pyStr ++ " (" ++ s2 ++ ")")

/-- Embedding of the body of `format_analysis_result`. -/
def format_analysis_result (analysis_result : Json) :
    Except PyErr (String × String × String) := do
  let labelsJ ← analysis_result.pyGet "labels" (.arr [])
  let labelsList ← labelsJ.pyIterate
  let labelItems ← labelsList.mapM labelItem
  let labels_str := strJoin ", " labelItems
  let objectsJ ← analysis_result.pyGet "objects" (.arr [])
  let objectsList ← objectsJ.pyIterate
  let objectItems ← objectsList.mapM objectItem
  let objects_str := strJoin ", " objectItems
  let textJ ← analysis_result.pyGet "text" (.str "")
  pure (if labels_str.isEmpty then "なし" else labels_str,
        if objects_str.isEmpty then "なし" else objects_str,
        (if textJ.truthy then textJ else .str "なし").pyStr)

/-- Embedding of `construct_prompt` (lines 159-186) for an arbitrary scenario
value: the `scenario not in PROMPT_TEMPLATES` membership test, then template
selection and interpolation.  The two non-`ok` fallback branches after a
successful membership test are unreachable (membership only holds for a
string key present in the dictionary); they mirror what the corresponding
Python dictionary operations would raise. -/
def construct_promptJ (scenario analysis_result : Json) : Except PyErr String := do
  let mem ← scenario.pyInDictKeys (PROMPT_TEMPLATES.map (fun p => p.1))
  if ¬ mem then .error (.valueError ("Invalid scenario: " ++ scenario.pyStr))
  else do
    let fr ← format_analysis_result analysis_result
    match scenario with
    | .str s =>
      match PROMPT_TEMPLATES.find? (fun p => p.1 = s) with
      | some p => pure (p.2 fr.1 fr.2.1 fr.2.2)
      | none => .error (.keyError s)
    | _ => .error (.typeError "unhashable key")

/-- `construct_prompt` at a string scenario, the type the source annotates. -/
def construct_prompt (scenario : String) (analysis_result : Json) : Except PyErr String :=
  construct_promptJ (.str scenario) analysis_result

/-- Embedding of `generate_advice` (lines 189-228).  The outcome of the
provider call (`model.generate_content` plus the `response.text` accessor) is
a parameter: `.ok advice` or `.error msg` with `msg` the `str()` of the
raised exception; the `except Exception` clause catches every class, so only
the message matters. -/
def generate_advice (_prompt : String) (providerOutcome : Except String String) :
    Bool × String × Option String :=
  match providerOutcome with
  | .ok advice => (true, advice, none)
  | .error e =>
    if strContains (strLower e) "safety" then
      (false, DEFAULT_ADVICE, some ("Content blocked due to safety settings: " ++ e))
    else
      (false, DEFAULT_ADVICE, some ("Error generating advice: " ++ e))

/-- Embedding of the message generator's `validate_request` (lines 231-254). -/
def validate_request (request_json : Option Json) : Except PyErr (Bool × Option String) := do
  if ¬ truthyOpt request_json then return (false, some "Request body is empty")
  let j := request_json.getD .null
  let hasScenario ← j.pyContains "scenario"
  if ¬ hasScenario then return (false, some "Missing 'scenario' field in request")
  let scen ← j.pyIndex "scenario"
  let mem ← scen.pyInDictKeys (PROMPT_TEMPLATES.map (fun p => p.1))
  if ¬ mem then
    return (false, some ("Invalid scenario: " ++ scen.pyStr ++ ". Must be one of: " ++
      strJoin ", " (PROMPT_TEMPLATES.map (fun p => p.1))))
  let hasAr ← j.pyContains "analysis_result"
  if ¬ hasAr then return (false, some "Missing 'analysis_result' field in request")
  return (true, none)

/-- An inbound request to the message generator. -/
structure MgRequest where
  method : String
  body : Option Json

/-- The body `jsonify({"success": s, "advice": a, "error": e})`. -/
def mgBody (success : Bool) (advice : Json) (error : Json) : Json :=
  .obj [("success", .bool success), ("advice", advice), ("error", error)]

/-- The `try` block of `generate_message` (lines 278-310); `get_credentials`
always returns `None` without raising; `initialize_vertex_ai`'s outcome is a
parameter. -/
def generate_message_try (req : MgRequest) (initOutcome : Except PyErr Unit)
    (providerOutcome : Except String String) : Except PyErr HttpResponse := do
  let (is_valid, error_message) ← validate_request req.body
  if ¬ is_valid then
    return ⟨400, mgBody false .null (optStrJson error_message), []⟩
  let j := req.body.getD .null
  let scenario ← j.pyIndex "scenario"
  let analysis_result ← j.pyIndex "analysis_result"
  let _ ← initOutcome
  let prompt ← construct_promptJ scenario analysis_result
  let r := generate_advice prompt providerOutcome
  return ⟨200, mgBody r.1 (.str r.2.1) (optStrJson r.2.2), []⟩

/-- Embedding of the `generate_message` entry point (lines 257-324):
`except ValueError` yields a 400, `except Exception` a 500, both with
`DEFAULT_ADVICE` as the advice. -/
def generate_message (req : MgRequest) (initOutcome : Except PyErr Unit)
    (providerOutcome : Except String String) : HttpResponse :=
  if req.method ≠ "POST" then
    ⟨405, mgBody false .null (.str "Only POST requests are supported"), []⟩
  else
    match generate_message_try req initOutcome providerOutcome with
    | .ok r => r
    | .error (.valueError m) => ⟨400, mgBody false (.str DEFAULT_ADVICE) (.str m), []⟩
    | .error e =>
      ⟨500, mgBody false (.str DEFAULT_ADVICE) (.str ("Internal server error: " ++ e.msg)), []⟩

end MessageGenerator

namespace DeployImageProcessor

/-- A label dictionary in the deploy-variant image processor
(`ai-housekeeping-advisor/backend/image-processor/deploy/src/main.py`). -/
structure DLabel where
  description : String
  score : ℚ
  topicality : ℚ
  deriving DecidableEq, Repr

/-- A normalized vertex of a bounding polygon. -/
structure DVertex where
  x : ℚ
  y : ℚ
  deriving DecidableEq, Repr

/-- An object dictionary in the deploy-variant image processor. -/
structure DObject where
  name : String
  score : ℚ
  bounding_poly : List DVertex
  deriving DecidableEq, Repr

/-- An RGB triple of a dominant color. -/
structure DColorRGB where
  red : ℚ
  green : ℚ
  blue : ℚ
  deriving DecidableEq, Repr

/-- A dominant-color dictionary in the deploy-variant image processor. -/
structure DColor where
  color : DColorRGB
  score : ℚ
  pixel_fraction : ℚ
  deriving DecidableEq, Repr

/-- The provider response consumed by the deploy-variant handler. -/
structure DVisionResponse where
  label_annotations : List DLabel
  localized_object_annotations : List DObject
  text_annotations : List String
  dominant_colors : List DColor

/-- The derived `properties` dictionary. -/
structure EnvProps where
  environment_type : String
  cleanliness_level : String
  organization_level : String
  deriving DecidableEq, Repr

/-- The `ImageAnalysisResponse` returned by the deploy-variant handler. -/
structure DeployResult where
  labels : List DLabel
  objects : List DObject
  text : Option String
  colors : List DColor
  properties : EnvProps

/-- The `environment_labels` set (line 193). -/
def environment_labels : List String :=
  ["kitchen", "bathroom", "bedroom", "living room", "dining room"]

/-- The `cleanliness_indicators` dictionary (lines 199-203), in insertion
order. -/
def cleanliness_indicators : List (String × List String) :=
  [("clean", ["clean", "tidy", "organized", "neat", "spotless"]),
   ("moderate", ["lived in", "used", "normal"]),
   ("dirty", ["dirty", "messy", "cluttered", "disorganized", "stained"])]

/-- The keyword/count heuristics of lines 187-218: first label whose
lowercased description is an environment word; first cleanliness level (in
dictionary order) for which some label's lowercased description contains an
indicator; an organization level from the object count. -/
def computeProperties (labels : List DLabel) (objects : List DObject) : EnvProps :=
  let environment_type :=
    match labels.find? (fun l => environment_labels.contains (strLower l.description)) with
    | some l => strLower l.description
    | none => "unknown"
  let cleanliness_level :=
    match cleanliness_indicators.find? (fun li =>
        labels.any (fun lb => li.2.any (fun ind => strContains (strLower lb.description) ind))) with
    | some li => li.1
    | none => "unknown"
  let organization_level :=
    if objects.length > 10 then "cluttered"
    else if objects.length > 5 then "moderate"
    else "minimal"
  ⟨environment_type, cleanliness_level, organization_level⟩

/-- The fixed mock labels (lines 130-138). -/
def mockLabels : List DLabel :=
  [⟨"Kitchen", 0.95, 0.95⟩, ⟨"Room", 0.92, 0.92⟩, ⟨"Countertop", 0.88, 0.88⟩,
   ⟨"Cabinetry", 0.85, 0.85⟩, ⟨"Sink", 0.82, 0.82⟩, ⟨"Appliance", 0.80, 0.80⟩,
   ⟨"Clean", 0.75, 0.75⟩]

/-- The fixed mock objects (lines 140-165). -/
def mockObjects : List DObject :=
  [⟨"Sink", 0.92, [⟨0.2, 0.3⟩, ⟨0.4, 0.3⟩, ⟨0.4, 0.5⟩, ⟨0.2, 0.5⟩]⟩,
   ⟨"Refrigerator", 0.89, [⟨0.6, 0.2⟩, ⟨0.8, 0.2⟩, ⟨0.8, 0.7⟩, ⟨0.6, 0.7⟩]⟩,
   ⟨"Oven", 0.85, [⟨0.1, 0.6⟩, ⟨0.3, 0.6⟩, ⟨0.3, 0.8⟩, ⟨0.1, 0.8⟩]⟩]

/-- The fixed mock colors (lines 169-185). -/
def mockColors : List DColor :=
  [⟨⟨255, 255, 255⟩, 0.4, 0.3⟩, ⟨⟨200, 200, 200⟩, 0.3, 0.2⟩, ⟨⟨50, 50, 50⟩, 0.2, 0.1⟩]

/-- A FastAPI `HTTPException`. -/
structure HTTPException where
  status_code : Nat
  detail : String
  deriving DecidableEq, Repr

/-- Embedding of the deploy-variant `process_image` (lines 57-235).
`visionClient = none` models the globally `None` client (initialization
failed at process start); `some outcome` models a live client whose
`annotate_image` call yields `outcome`.  On the provider path the label and
object dictionaries copy the annotation fields unchanged (no score filter,
no rounding); on the mock path the fixed literals are used; both are then
annotated with the derived properties.  Any exception in the body is mapped
to `HTTPException(500, "Error processing image")`. -/
def process_image (_imageContent : List Nat)
    (visionClient : Option (Except PyErr DVisionResponse)) :
    Except HTTPException DeployResult :=
  match visionClient with
  | some (.error _) => .error ⟨500, "Error processing image"⟩
  | some (.ok resp) =>
    let labels := resp.label_annotations
    let objects := resp.localized_object_annotations
    let text := resp.text_annotations.head?
    let colors := resp.dominant_colors
    .ok ⟨labels, objects, text, colors, computeProperties labels objects⟩
  | none =>
    .ok ⟨mockLabels, mockObjects, some "Kitchen with modern appliances", mockColors,
      computeProperties mockLabels mockObjects⟩

end DeployImageProcessor

namespace DeployMessageGenerator

open DeployImageProcessor

/-- Python `properties.get(key, "unknown")` over the string-valued keys the
deploy-variant prompt builder reads. -/
def propsGet (props : List (String × String)) (key : String) : String :=
  (props.lookup key).getD "unknown"

/-- Embedding of `_construct_prompt` from
`ai-housekeeping-advisor/backend/message-generator/src/main.py`
(lines 196-283): only the first 5 labels and first 10 objects are embedded;
an unrecognized environment type only omits the focus block, it does not
fail.  The detected text is a string (`""` models an absent/falsy value).
`variantHeader` is the initial f-string with the top-5 labels and top-10
objects comma-joined. -/
def variantHeader (labels : List DLabel) (objects : List DObject)
    (props : List (String × String)) : String :=
  "\n    You are an expert housekeeping advisor. Based on the analysis of an image, provide practical, \n    specific housekeeping advice (cleaning, organizing, or cooking tips) for the user.\n    \n    Image Analysis:\n    - Environment Type: " ++ propsGet props "environment_type" ++
  "\n    - Cleanliness Level: " ++ propsGet props "cleanliness_level" ++
  "\n    - Organization Level: " ++ propsGet props "organization_level" ++
  "\n    - Key Items Detected: " ++ strJoin ", " ((objects.take 10).map (fun o => o.name)) ++
  "\n    - Key Features: " ++ strJoin ", " ((labels.take 5).map (fun l => l.description)) ++
  "\n    "

/-- Embedding of `_construct_prompt` continued: the conditional text,
context and focus-area appends, and the fixed closing block. -/
def construct_prompt_variant (labels : List DLabel) (objects : List DObject)
    (text : String) (props : List (String × String)) (context : Option String) : String :=
  let environment_type := propsGet props "environment_type"
  let prompt := variantHeader labels objects props
  let prompt := if ¬ text.isEmpty then prompt ++ "\n- Text Visible in Image: " ++ text else prompt
  let prompt :=
    match context with
    | some ctx => if ¬ ctx.isEmpty then prompt ++ "\n\nAdditional Context from User: " ++ ctx else prompt
    | none => prompt
  let prompt :=
    if environment_type = "kitchen" then
      prompt ++ "\n        \nFocus on:\n        1. Food safety and hygiene\n        2. Efficient organization of kitchen tools and appliances\n        3. Cleaning techniques for different surfaces\n        4. Meal preparation tips based on visible ingredients\n        "
    else if environment_type = "bathroom" then
      prompt ++ "\n        \nFocus on:\n        1. Hygiene and sanitation\n        2. Mold and mildew prevention\n        3. Efficient organization of toiletries\n        4. Water conservation tips\n        "
    else if environment_type = "bedroom" then
      prompt ++ "\n        \nFocus on:\n        1. Organization and decluttering\n        2. Bedding hygiene and maintenance\n        3. Creating a restful environment\n        4. Storage solutions\n        "
    else if environment_type = "living room" then
      prompt ++ "\n        \nFocus on:\n        1. Dust control and air quality\n        2. Furniture arrangement and care\n        3. Decluttering common areas\n        4. Creating a welcoming space\n        "
    else prompt
  prompt ++ "\n    \nProvide your advice in a friendly, conversational tone. Include:\n    1. A brief assessment of the current state\n    2. 3-5 specific, actionable recommendations\n    3. Any quick tips or life hacks relevant to the situation\n    \n    Keep your response concise (250-350 words) and practical.\n    "

end DeployMessageGenerator

/-! ## Derived normal forms

The following definitions give the closed forms that the message
generator's formatting code produces on a well-formed (JSON-encoded)
analysis result; the equivalence with the embedded code is proven below. -/

/-- The item produced for one label: `"description (score:.2f)"`. -/
def labelItemStr (l : ImageProcessor.VisionLabel) : String :=
  l.description ++ " (" ++ MessageGenerator.formatFixed2 l.score ++ ")"

/-- The item produced for one object: `"name (score:.2f)"`. -/
def objectItemStr (o : ImageProcessor.VisionObject) : String :=
  o.name ++ " (" ++ MessageGenerator.formatFixed2 o.score ++ ")"

/-- The comma-joined labels string (`"なし"` when there are no labels). -/
def labelsStrOf (ar : ImageProcessor.AnalysisOut) : String :=
  if (strJoin ", " (ar.labels.map labelItemStr)).isEmpty then "なし"
  else strJoin ", " (ar.labels.map labelItemStr)

/-- The comma-joined objects string (`"なし"` when there are no objects). -/
def objectsStrOf (ar : ImageProcessor.AnalysisOut) : String :=
  if (strJoin ", " (ar.objects.map objectItemStr)).isEmpty then "なし"
  else strJoin ", " (ar.objects.map objectItemStr)

/-- The text string (`"なし"` when the detected text is falsy). -/
def textStrOf (ar : ImageProcessor.AnalysisOut) : String :=
  if (Json.str ar.text).truthy then ar.text else "なし"

/-! ## Shared helper lemmas -/

/-- `toList` distributes over string append. -/
theorem str_toList_append (a b : String) : (a ++ b).toList = a.toList ++ b.toList :=
  String.data_append a b

/-- `String.mk` is a left inverse of `toList`. -/
theorem str_mk_toList (s : String) : String.mk s.toList = s := by
  cases s
  rfl

/-- A list is a `isPrefixOf` of itself followed by anything. -/
theorem isPrefixOf_append_self (l t : List Char) : l.isPrefixOf (l ++ t) = true := by
  induction l with
  | nil => cases t <;> rfl
  | cons c rest ih => simp [List.isPrefixOf, ih]

/-- Rounding half-to-even never goes below the floor. -/
theorem roundHalfEven_ge_floor (q : ℚ) : ⌊q⌋ ≤ ImageProcessor.roundHalfEven q := by
  unfold ImageProcessor.roundHalfEven
  split_ifs <;> omega

/-- Rounding half-to-even fixes integers. -/
theorem roundHalfEven_intCast (k : ℤ) : ImageProcessor.roundHalfEven (k : ℚ) = k := by
  unfold ImageProcessor.roundHalfEven
  rw [Int.floor_intCast]
  norm_num

/-- `round2` is idempotent: a rounded score is a 2-decimal value. -/
theorem round2_round2 (q : ℚ) : ImageProcessor.round2 (ImageProcessor.round2 q) =
    ImageProcessor.round2 q := by
  unfold ImageProcessor.round2
  rw [div_mul_cancel₀ _ (by norm_num : (100 : ℚ) ≠ 0), roundHalfEven_intCast]

/-- `round2` preserves the `0.6` threshold. -/
theorem round2_threshold (q : ℚ) (h : (0.6 : ℚ) ≤ q) : (0.6 : ℚ) ≤ ImageProcessor.round2 q := by
  unfold ImageProcessor.round2
  have h100 : (60 : ℚ) ≤ q * 100 := by nlinarith
  have hfloor : (60 : ℤ) ≤ ⌊q * 100⌋ := Int.le_floor.mpr (by exact_mod_cast h100)
  have hr : (60 : ℤ) ≤ ImageProcessor.roundHalfEven (q * 100) :=
    le_trans hfloor (roundHalfEven_ge_floor _)
  have : (60 : ℚ) ≤ (ImageProcessor.roundHalfEven (q * 100) : ℚ) := by exact_mod_cast hr
  nlinarith

/-- Skipping: `a2b_base64` maps a list free of data characters and padding
to the accumulated output. -/
theorem a2b_base64_skip_all (l : List Char) (lc p : Nat) (acc : List Nat)
    (h : ∀ c ∈ l, b64val c = none ∧ c ≠ '=') :
    a2b_base64 l 0 lc p acc = .ok acc.reverse := by
  induction l generalizing lc p acc with
  | nil => rfl
  | cons c rest ih =>
    obtain ⟨hv, hpad⟩ := h c (List.mem_cons_self c rest)
    rw [a2b_base64, if_neg hpad, hv]
    exact ih lc p acc (fun x hx => h x (List.mem_cons_of_mem c hx))

/-- A list without base64-alphabet characters cannot contain `"base64,"`. -/
theorem no_marker_of_no_alphabet (l : List Char) (h : ∀ c ∈ l, b64val c = none) :
    listContainsSub "base64,".toList l = false := by
  induction l with
  | nil => rfl
  | cons c rest ih =>
    rw [listContainsSub]
    have hval := h c (List.mem_cons_self c rest)
    have hpre : ("base64,".toList).isPrefixOf (c :: rest) = false := by
      have hsplit : "base64,".toList = 'b' :: "ase64,".toList := by decide
      rw [hsplit, List.isPrefixOf]
      have hc : ('b' == c) = false := by
        rw [beq_eq_false_iff_ne]
        intro hcb
        rw [← hcb] at hval
        exact absurd hval (by decide)
      rw [hc]
      rfl
    rw [hpre]
    simpa using ih (fun x hx => h x (List.mem_cons_of_mem c hx))

/-- When the `skip` counter equals the length of a leading chunk, that chunk
is consumed without inspection. -/
theorem pySplitAux_skip (sep : List Char) :
    ∀ (l x acc : List Char), pySplitAux sep (l ++ x) acc l.length = pySplitAux sep x acc 0 := by
  intro l
  induction l with
  | nil => intro x acc; rfl
  | cons c l ih =>
    intro x acc
    rw [List.cons_append, List.length_cons, pySplitAux]
    exact ih x acc

/-- Scanning `a ++ (sep ++ x)` where no occurrence of `sep` starts inside
`a` emits `a` (appended to the pending accumulator) and continues after the
separator. -/
theorem pySplitAux_emit (sep : List Char) (hsep : sep ≠ []) :
    ∀ (a x acc : List Char),
      (∀ i, i < a.length → sep.isPrefixOf (List.drop i (a ++ (sep ++ x))) = false) →
      pySplitAux sep (a ++ (sep ++ x)) acc 0 = (acc.reverse ++ a) :: pySplitAux sep x [] 0 := by
  intro a
  induction a with
  | nil =>
    intro x acc _
    obtain ⟨s0, ss, rfl⟩ : ∃ s0 ss, sep = s0 :: ss := by
      cases sep with
      | nil => exact absurd rfl hsep
      | cons s0 ss => exact ⟨s0, ss, rfl⟩
    rw [List.nil_append, List.cons_append, pySplitAux]
    rw [show (s0 :: ss).isPrefixOf (s0 :: (ss ++ x)) = true from isPrefixOf_append_self _ _]
    simp only [if_true, List.length_cons, Nat.succ_sub_one, List.append_nil]
    rw [pySplitAux_skip (s0 :: ss) ss x []]
  | cons c a ih =>
    intro x acc h
    have h0 : sep.isPrefixOf (c :: (a ++ (sep ++ x))) = false := by
      have := h 0 (by simp)
      simpa using this
    rw [List.cons_append, pySplitAux, h0]
    simp only [Bool.false_eq_true, if_false]
    have hrest : ∀ i, i < a.length → sep.isPrefixOf (List.drop i (a ++ (sep ++ x))) = false := by
      intro i hi
      have := h (i + 1) (by simpa using Nat.succ_lt_succ hi)
      rwa [List.cons_append, List.drop_succ_cons] at this
    rw [ih x (c :: acc) hrest]
    simp [List.append_assoc]

/-- Scanning a chunk that contains no occurrence of `sep` yields a single
piece. -/
theorem pySplitAux_no_sep (sep : List Char) :
    ∀ (l acc : List Char), listContainsSub sep l = false →
      pySplitAux sep l acc 0 = [acc.reverse ++ l] := by
  intro l
  induction l with
  | nil => intro acc _; simp [pySplitAux]
  | cons c rest ih =>
    intro acc h
    rw [listContainsSub] at h
    have h1 : sep.isPrefixOf (c :: rest) = false := by
      cases hp : sep.isPrefixOf (c :: rest)
      · rfl
      · rw [hp] at h; simp at h
    have h2 : listContainsSub sep rest = false := by
      rw [h1] at h; simpa using h
    rw [pySplitAux, h1]
    simp only [Bool.false_eq_true, if_false]
    rw [ih (c :: acc) h2]
    simp [List.append_assoc]

/-- A list of the shape `pre ++ (pat ++ post)` contains `pat`. -/
theorem listContainsSub_of_shape (pat : List Char) (hpat : pat ≠ []) :
    ∀ (pre post : List Char), listContainsSub pat (pre ++ (pat ++ post)) = true := by
  intro pre
  induction pre with
  | nil =>
    intro post
    obtain ⟨p, ps, rfl⟩ : ∃ p ps, pat = p :: ps := by
      cases pat with
      | nil => exact absurd rfl hpat
      | cons p ps => exact ⟨p, ps, rfl⟩
    rw [List.nil_append, List.cons_append, listContainsSub]
    rw [show (p :: ps).isPrefixOf (p :: (ps ++ post)) = true from isPrefixOf_append_self _ _]
    rfl
  | cons c pre ih =>
    intro post
    rw [List.cons_append, listContainsSub, ih post]
    simp

/-- Bind of a successful `Except` computation. -/
theorem except_ok_bind {ε α β : Type} (a : α) (f : α → Except ε β) :
    (Except.ok a >>= f : Except ε β) = f a := rfl

/-- In the `Except` monad, `pure` is `Except.ok`. -/
theorem except_pure_eq {ε α : Type} (a : α) : (pure a : Except ε α) = Except.ok a := rfl

/-- String append is associative. -/
theorem str_append_assoc (a b c : String) : (a ++ b) ++ c = a ++ (b ++ c) := by
  have h : ((a ++ b) ++ c).toList = (a ++ (b ++ c)).toList := by
    simp [str_toList_append]
  rw [← str_mk_toList ((a ++ b) ++ c), ← str_mk_toList (a ++ (b ++ c)), h]

/-- A key that is not among the field names fails the membership scan. -/
theorem any_key_eq_false_of_not_mem {β : Type} (fs : List (String × β)) (k : String)
    (h : k ∉ fs.map Prod.fst) : fs.any (fun p => p.1 = k) = false := by
  rw [List.any_eq_false]
  intro p hp hpk
  exact h (List.mem_map.mpr ⟨p, hp, of_decide_eq_true hpk⟩)

/-- A key with a binding passes the membership scan. -/
theorem any_key_eq_true_of_lookup {β : Type} (fs : List (String × β)) (k : String) (v : β)
    (h : fs.lookup k = some v) : fs.any (fun p => p.1 = k) = true := by
  induction fs with
  | nil => simp [List.lookup] at h
  | cons p rest ih =>
    obtain ⟨k', v'⟩ := p
    rw [List.lookup] at h
    by_cases hk : (k == k') = true
    · have he : k = k' := eq_of_beq hk
      subst he
      simp [List.any_cons]
    · rw [Bool.not_eq_true] at hk
      rw [hk] at h
      simp only [List.any_cons, Bool.or_eq_true]
      exact Or.inr (ih h)

/-- A list with a binding is non-empty. -/
theorem ne_nil_of_lookup {β : Type} (fs : List (String × β)) (k : String) (v : β)
    (h : fs.lookup k = some v) : fs ≠ [] := by
  rintro rfl
  simp [List.lookup] at h

/-! ## C10 -/

/-- C10: when the input contains `"base64,"` more than once, only the
segment strictly between the first and second occurrences (element `[1]` of
the split) is base64-decoded and everything after the second occurrence is
silently discarded; when it occurs exactly once, the entire remainder after
it is decoded.  The positional hypotheses state that the displayed
occurrences are the first ones (no occurrence starts inside `a`, and none
starts inside `b`). -/
theorem C10_decode_image_split_segment :
    (∀ a b c : String,
      (∀ i, i < a.toList.length → ("base64,".toList).isPrefixOf
        (List.drop i ((a ++ "base64," ++ b ++ "base64," ++ c).toList)) = false) →
      (∀ i, i < b.toList.length → ("base64,".toList).isPrefixOf
        (List.drop i ((b ++ "base64," ++ c).toList)) = false) →
      ImageProcessor.decode_image (a ++ "base64," ++ b ++ "base64," ++ c) =
        match b64decode b with
        | .ok bs => .ok bs
        | .error e => .error (.valueError ("Invalid image data: " ++ e.msg))) ∧
    (∀ a b : String,
      (∀ i, i < a.toList.length → ("base64,".toList).isPrefixOf
        (List.drop i ((a ++ "base64," ++ b).toList)) = false) →
      strContains b "base64," = false →
      ImageProcessor.decode_image (a ++ "base64," ++ b) =
        match b64decode b with
        | .ok bs => .ok bs
        | .error e => .error (.valueError ("Invalid image data: " ++ e.msg))) := by
  constructor
  · intro a b c h1 h2
    have hsL : (a ++ "base64," ++ b ++ "base64," ++ c).toList =
        a.toList ++ ("base64,".toList ++ (b.toList ++ ("base64,".toList ++ c.toList))) := by
      simp [str_toList_append]
    have hbL : (b ++ "base64," ++ c).toList =
        b.toList ++ ("base64,".toList ++ c.toList) := by
      simp [str_toList_append]
    have hcontains : strContains (a ++ "base64," ++ b ++ "base64," ++ c) "base64," = true := by
      unfold strContains
      rw [hsL]
      exact listContainsSub_of_shape _ (by decide) _ _
    have hps : pySplitAux "base64,".toList
          ((a ++ "base64," ++ b ++ "base64," ++ c).toList) [] 0 =
        a.toList :: b.toList :: pySplitAux "base64,".toList c.toList [] 0 := by
      rw [hsL]
      rw [pySplitAux_emit "base64,".toList (by decide) a.toList _ []
        (fun i hi => by have := h1 i hi; rwa [hsL] at this)]
      rw [pySplitAux_emit "base64,".toList (by decide) b.toList _ []
        (fun i hi => by have := h2 i hi; rwa [hbL] at this)]
      simp
    have harg : (((pySplit (a ++ "base64," ++ b ++ "base64," ++ c) "base64,").get? 1).getD "")
        = b := by
      unfold pySplit
      rw [hps]
      simp [str_mk_toList]
    show (match b64decode (if strContains (a ++ "base64," ++ b ++ "base64," ++ c) "base64,"
        then ((pySplit (a ++ "base64," ++ b ++ "base64," ++ c) "base64,").get? 1).getD ""
        else (a ++ "base64," ++ b ++ "base64," ++ c)) with
      | Except.ok bs => (Except.ok bs : Except PyErr (List Nat))
      | Except.error e => Except.error (PyErr.valueError ("Invalid image data: " ++ e.msg))) = _
    rw [if_pos hcontains, harg]
  · intro a b h1 h2
    have hsL : (a ++ "base64," ++ b).toList =
        a.toList ++ ("base64,".toList ++ b.toList) := by
      simp [str_toList_append]
    have hcontains : strContains (a ++ "base64," ++ b) "base64," = true := by
      unfold strContains
      rw [hsL]
      exact listContainsSub_of_shape _ (by decide) _ _
    have hps : pySplitAux "base64,".toList ((a ++ "base64," ++ b).toList) [] 0 =
        a.toList :: [b.toList] := by
      rw [hsL]
      rw [pySplitAux_emit "base64,".toList (by decide) a.toList _ []
        (fun i hi => by have := h1 i hi; rwa [hsL] at this)]
      rw [pySplitAux_no_sep "base64,".toList b.toList [] h2]
      simp
    have harg : (((pySplit (a ++ "base64," ++ b) "base64,").get? 1).getD "") = b := by
      unfold pySplit
      rw [hps]
      simp [str_mk_toList]
    show (match b64decode (if strContains (a ++ "base64," ++ b) "base64,"
        then ((pySplit (a ++ "base64," ++ b) "base64,").get? 1).getD ""
        else (a ++ "base64," ++ b)) with
      | Except.ok bs => (Except.ok bs : Except PyErr (List Nat))
      | Except.error e => Except.error (PyErr.valueError ("Invalid image data: " ++ e.msg))) = _
    rw [if_pos hcontains, harg]

/-- C10 witness: both clauses of `C10_decode_image_split_segment` at
concrete inputs. -/
theorem C10_decode_image_split_segment_witness :
    ImageProcessor.decode_image ("data:" ++ "base64," ++ "YQ==" ++ "base64," ++ "zzz") =
      .ok [97] ∧
    ImageProcessor.decode_image ("image;" ++ "base64," ++ "YQ==") = .ok [97] := by
  constructor
  · exact (C10_decode_image_split_segment.1 "data:" "YQ==" "zzz"
      (by decide) (by decide)).trans (by rfl)
  · exact (C10_decode_image_split_segment.2 "image;" "YQ=="
      (by decide) (by decide)).trans (by rfl)

/-- Bind of a failed `Except` computation. -/
theorem except_error_bind {ε α β : Type} (e : ε) (f : α → Except ε β) :
    (Except.error e >>= f : Except ε β) = .error e := rfl

/-- Decompose a successful bind. -/
theorem except_bind_ok {ε α β : Type} {x : Except ε α} {f : α → Except ε β} {r : β}
    (h : (x >>= f) = .ok r) : ∃ a, x = .ok a ∧ f a = .ok r := by
  cases x with
  | ok a => exact ⟨a, rfl, h⟩
  | error e => exact absurd h (by simp [except_error_bind])

/-- An append whose left part has characters is not the empty string. -/
theorem append_ne_empty_of_left (a b : String) (ha : a.toList ≠ []) : a ++ b ≠ "" := by
  intro h
  have h0 := congrArg String.toList h
  rw [str_toList_append] at h0
  rcases List.append_eq_nil.mp h0 with ⟨h1, _⟩
  exact ha h1

/-- The message-generator validator accepts a body with a known scenario
string and an `analysis_result` field. -/
theorem validate_mg_pass (fs : List (String × Json)) (s : String)
    (hlook : fs.lookup "scenario" = some (.str s))
    (hmem : s ∈ ["plant", "closet", "fridge"])
    (hmemi : "analysis_result" ∈ fs.map Prod.fst) :
    MessageGenerator.validate_request (some (.obj fs)) = .ok (true, none) := by
  have hne := ne_nil_of_lookup fs _ _ hlook
  have hany := any_key_eq_true_of_lookup fs _ _ hlook
  have hanyi : fs.any (fun p => p.1 = "analysis_result") = true := by
    rw [List.any_eq_true]
    obtain ⟨p, hp, hpk⟩ := List.mem_map.mp hmemi
    exact ⟨p, hp, decide_eq_true hpk⟩
  have houter : truthyOpt (some (.obj fs)) = true := by
    simp [truthyOpt, Json.truthy, hne]
  have hcond : ¬(¬s = "plant" ∧ ¬s = "closet" ∧ ¬s = "fridge") := by
    simp only [not_and, not_not]
    rcases (by simpa using hmem : s = "plant" ∨ s = "closet" ∨ s = "fridge") with h | h | h <;>
      simp [h]
  unfold MessageGenerator.validate_request
  simp [houter, Json.pyContains, Json.pyIndex, Json.pyInDictKeys, hany, hlook, hanyi,
    MessageGenerator.PROMPT_TEMPLATES, except_ok_bind, except_pure_eq, hcond]

/-- The gateway validator accepts a body with a known scenario string and a
truthy `image_data` field. -/
theorem validate_gw_pass (fs : List (String × Json)) (s : String) (v : Json)
    (hlook : fs.lookup "scenario" = some (.str s))
    (hmem : s ∈ ApiGateway.VALID_SCENARIOS)
    (hlooki : fs.lookup "image_data" = some v) (htr : v.truthy = true) :
    ApiGateway.validate_request (some (.obj fs)) = .ok (true, none) := by
  have hne := ne_nil_of_lookup fs _ _ hlook
  have hany := any_key_eq_true_of_lookup fs _ _ hlook
  have hanyi := any_key_eq_true_of_lookup fs _ _ hlooki
  have houter : truthyOpt (some (.obj fs)) = true := by
    simp [truthyOpt, Json.truthy, hne]
  have hnot : ¬ (∀ x ∈ ApiGateway.VALID_SCENARIOS, (Json.str s).eqStr x = false) := by
    intro hall
    have := hall s hmem
    simp [Json.eqStr] at this
  unfold ApiGateway.validate_request
  simp [houter, Json.pyContains, Json.pyIndex, hany, hlook, hanyi, hlooki,
    except_ok_bind, except_pure_eq, hnot, htr]

/-! ## C2 -/

/-- C2: each request validator is a pure function that returns the error of
the first failing rule in its fixed check order — empty/absent body, first
missing required field (in order), enum field outside its allowed set
(message listing the allowed values), present-but-empty field — and returns
`(true, none)` when every rule passes.  The conjuncts cover the gateway
validator (fields `scenario`, `image_data`) and the message-generator
validator (fields `scenario`, `analysis_result`). -/
theorem C2_validator_first_failure_order :
    (ApiGateway.validate_request none = .ok (false, some "Request body is empty")) ∧
    (ApiGateway.validate_request (some (.obj [])) =
      .ok (false, some "Request body is empty")) ∧
    (∀ fs : List (String × Json), fs ≠ [] → "scenario" ∉ fs.map Prod.fst →
      ApiGateway.validate_request (some (.obj fs)) =
        .ok (false, some "Missing 'scenario' field in request")) ∧
    (∀ (fs : List (String × Json)) (v : Json), fs.lookup "scenario" = some v →
      (∀ sc ∈ ApiGateway.VALID_SCENARIOS, v.eqStr sc = false) →
      ApiGateway.validate_request (some (.obj fs)) =
        .ok (false, some "Invalid 'scenario' value. Must be one of: plant, closet, fridge")) ∧
    (∀ (fs : List (String × Json)) (s : String),
      fs.lookup "scenario" = some (.str s) → s ∈ ApiGateway.VALID_SCENARIOS →
      "image_data" ∉ fs.map Prod.fst →
      ApiGateway.validate_request (some (.obj fs)) =
        .ok (false, some "Missing 'image_data' field in request")) ∧
    (∀ (fs : List (String × Json)) (s : String) (v : Json),
      fs.lookup "scenario" = some (.str s) → s ∈ ApiGateway.VALID_SCENARIOS →
      fs.lookup "image_data" = some v → v.truthy = false →
      ApiGateway.validate_request (some (.obj fs)) =
        .ok (false, some "Empty 'image_data' field in request")) ∧
    (∀ (fs : List (String × Json)) (s : String) (v : Json),
      fs.lookup "scenario" = some (.str s) → s ∈ ApiGateway.VALID_SCENARIOS →
      fs.lookup "image_data" = some v → v.truthy = true →
      ApiGateway.validate_request (some (.obj fs)) = .ok (true, none)) ∧
    (MessageGenerator.validate_request none = .ok (false, some "Request body is empty")) ∧
    (∀ fs : List (String × Json), fs ≠ [] → "scenario" ∉ fs.map Prod.fst →
      MessageGenerator.validate_request (some (.obj fs)) =
        .ok (false, some "Missing 'scenario' field in request")) ∧
    (∀ (fs : List (String × Json)) (s : String),
      fs.lookup "scenario" = some (.str s) → s ∉ ["plant", "closet", "fridge"] →
      MessageGenerator.validate_request (some (.obj fs)) =
        .ok (false, some ("Invalid scenario: " ++ s ++ ". Must be one of: plant, closet, fridge"))) ∧
    (∀ (fs : List (String × Json)) (s : String),
      fs.lookup "scenario" = some (.str s) → s ∈ ["plant", "closet", "fridge"] →
      "analysis_result" ∉ fs.map Prod.fst →
      MessageGenerator.validate_request (some (.obj fs)) =
        .ok (false, some "Missing 'analysis_result' field in request")) ∧
    (∀ (fs : List (String × Json)) (s : String),
      fs.lookup "scenario" = some (.str s) → s ∈ ["plant", "closet", "fridge"] →
      "analysis_result" ∈ fs.map Prod.fst →
      MessageGenerator.validate_request (some (.obj fs)) = .ok (true, none)) := by
  refine ⟨rfl, rfl, ?_, ?_, ?_, ?_, ?_, rfl, ?_, ?_, ?_, ?_⟩
  · intro fs hne hnmem
    have h2 := any_key_eq_false_of_not_mem fs "scenario" hnmem
    unfold ApiGateway.validate_request
    simp [truthyOpt, Json.truthy, Json.pyContains, hne, h2, except_ok_bind, except_pure_eq]
  · intro fs v hlook hinv
    have hne := ne_nil_of_lookup fs _ _ hlook
    have hany := any_key_eq_true_of_lookup fs _ _ hlook
    unfold ApiGateway.validate_request
    simp [truthyOpt, Json.truthy, Json.pyContains, Json.pyIndex, hne, hany, hlook,
      except_ok_bind, except_pure_eq, hinv, ApiGateway.VALID_SCENARIOS]
    decide
  · intro fs s hlook hmem hnmem
    have hne := ne_nil_of_lookup fs _ _ hlook
    have hany := any_key_eq_true_of_lookup fs _ _ hlook
    have hanyi := any_key_eq_false_of_not_mem fs "image_data" hnmem
    have houter : truthyOpt (some (.obj fs)) = true := by
      simp [truthyOpt, Json.truthy, hne]
    have hnot : ¬ (∀ x ∈ ApiGateway.VALID_SCENARIOS, (Json.str s).eqStr x = false) := by
      intro hall
      have := hall s hmem
      simp [Json.eqStr] at this
    unfold ApiGateway.validate_request
    simp [houter, Json.pyContains, Json.pyIndex, hany, hlook, hanyi,
      except_ok_bind, except_pure_eq, hnot]
  · intro fs s v hlook hmem hlooki htr
    have hne := ne_nil_of_lookup fs _ _ hlook
    have hany := any_key_eq_true_of_lookup fs _ _ hlook
    have hanyi := any_key_eq_true_of_lookup fs _ _ hlooki
    have houter : truthyOpt (some (.obj fs)) = true := by
      simp [truthyOpt, Json.truthy, hne]
    have hnot : ¬ (∀ x ∈ ApiGateway.VALID_SCENARIOS, (Json.str s).eqStr x = false) := by
      intro hall
      have := hall s hmem
      simp [Json.eqStr] at this
    unfold ApiGateway.validate_request
    simp [houter, Json.pyContains, Json.pyIndex, hany, hlook, hanyi, hlooki,
      except_ok_bind, except_pure_eq, hnot, htr]
  · intro fs s v hlook hmem hlooki htr
    exact validate_gw_pass fs s v hlook hmem hlooki htr
  · intro fs hne hnmem
    have h2 := any_key_eq_false_of_not_mem fs "scenario" hnmem
    unfold MessageGenerator.validate_request
    simp [truthyOpt, Json.truthy, Json.pyContains, hne, h2, except_ok_bind, except_pure_eq]
  · intro fs s hlook hnmem
    have hne := ne_nil_of_lookup fs _ _ hlook
    have hany := any_key_eq_true_of_lookup fs _ _ hlook
    have houter : truthyOpt (some (.obj fs)) = true := by
      simp [truthyOpt, Json.truthy, hne]
    have hcond : ¬s = "plant" ∧ ¬s = "closet" ∧ ¬s = "fridge" := by
      simpa using hnmem
    have hmsg : (". Must be one of: " ++ strJoin ", " ["plant", "closet", "fridge"]) =
        ". Must be one of: plant, closet, fridge" := by decide
    unfold MessageGenerator.validate_request
    simp [houter, Json.pyContains, Json.pyIndex, Json.pyInDictKeys, hany, hlook,
      MessageGenerator.PROMPT_TEMPLATES, except_ok_bind, except_pure_eq, Json.pyStr,
      hcond, str_append_assoc, hmsg]
  · intro fs s hlook hmem hnmem
    have hne := ne_nil_of_lookup fs _ _ hlook
    have hany := any_key_eq_true_of_lookup fs _ _ hlook
    have hanyi := any_key_eq_false_of_not_mem fs "analysis_result" hnmem
    have houter : truthyOpt (some (.obj fs)) = true := by
      simp [truthyOpt, Json.truthy, hne]
    have hcond : ¬(¬s = "plant" ∧ ¬s = "closet" ∧ ¬s = "fridge") := by
      simp only [not_and, not_not]
      rcases (by simpa using hmem : s = "plant" ∨ s = "closet" ∨ s = "fridge") with h | h | h <;>
        simp [h]
    unfold MessageGenerator.validate_request
    simp [houter, Json.pyContains, Json.pyIndex, Json.pyInDictKeys, hany, hlook, hanyi,
      MessageGenerator.PROMPT_TEMPLATES, except_ok_bind, except_pure_eq, hcond]
  · intro fs s hlook hmem hmemi
    exact validate_mg_pass fs s hlook hmem hmemi

/-- C2 witness: the validator conjuncts at concrete request bodies. -/
theorem C2_validator_first_failure_order_witness :
    ApiGateway.validate_request (some (.obj [("image_data", .str "x")])) =
      .ok (false, some "Missing 'scenario' field in request") ∧
    ApiGateway.validate_request (some (.obj [("scenario", .num 3)])) =
      .ok (false, some "Invalid 'scenario' value. Must be one of: plant, closet, fridge") ∧
    ApiGateway.validate_request (some (.obj [("scenario", .str "plant")])) =
      .ok (false, some "Missing 'image_data' field in request") ∧
    ApiGateway.validate_request
        (some (.obj [("scenario", .str "plant"), ("image_data", .str "")])) =
      .ok (false, some "Empty 'image_data' field in request") ∧
    ApiGateway.validate_request
        (some (.obj [("scenario", .str "plant"), ("image_data", .str "x")])) =
      .ok (true, none) ∧
    MessageGenerator.validate_request (some (.obj [("scenario", .str "pool")])) =
      .ok (false, some ("Invalid scenario: " ++ "pool" ++ ". Must be one of: plant, closet, fridge")) ∧
    MessageGenerator.validate_request (some (.obj [("scenario", .str "fridge")])) =
      .ok (false, some "Missing 'analysis_result' field in request") ∧
    MessageGenerator.validate_request
        (some (.obj [("scenario", .str "fridge"), ("analysis_result", .obj [])])) =
      .ok (true, none) := by
  refine ⟨?_, ?_, ?_, ?_, ?_, ?_, ?_, ?_⟩
  · exact C2_validator_first_failure_order.2.2.1 _ (List.cons_ne_nil _ _) (by decide)
  · exact C2_validator_first_failure_order.2.2.2.1 _ (.num 3) rfl (by decide)
  · exact C2_validator_first_failure_order.2.2.2.2.1 _ "plant" rfl (by decide) (by decide)
  · exact C2_validator_first_failure_order.2.2.2.2.2.1 _ "plant" (.str "")
      rfl (by decide) rfl (by decide)
  · exact C2_validator_first_failure_order.2.2.2.2.2.2.1 _ "plant" (.str "x")
      rfl (by decide) rfl (by decide)
  · exact C2_validator_first_failure_order.2.2.2.2.2.2.2.2.2.1 _ "pool" rfl (by decide)
  · exact C2_validator_first_failure_order.2.2.2.2.2.2.2.2.2.2.1 _ "fridge"
      rfl (by decide) (by decide)
  · exact C2_validator_first_failure_order.2.2.2.2.2.2.2.2.2.2.2 _ "fridge"
      rfl (by decide) (by decide)

/-! ## C4 support -/

/-- An infix of the left part is an infix of an append. -/
theorem infixL {x l r : List Char} (h : x <:+: l) : x <:+: l ++ r :=
  h.trans (List.prefix_append l r).isInfix

/-- An infix of the right part is an infix of an append. -/
theorem infixR {x l r : List Char} (h : x <:+: r) : x <:+: l ++ r :=
  h.trans (List.suffix_append l r).isInfix

/-- Every element of a joined list is an infix of the join. -/
theorem mem_infix_strJoin (sep : String) :
    ∀ (xs : List String) (x : String), x ∈ xs → x.toList <:+: (strJoin sep xs).toList := by
  intro xs
  induction xs with
  | nil => intro x hx; simp at hx
  | cons y ys ih =>
    intro x hx
    cases ys with
    | nil =>
      rcases List.mem_singleton.mp hx with rfl
      exact List.infix_refl _
    | cons z zs =>
      rw [strJoin, str_toList_append, str_toList_append]
      rcases List.mem_cons.mp hx with rfl | hx
      · exact infixL (infixL (List.infix_refl _))
      · exact infixR (ih x hx)

/-- A string with a non-empty character list is not empty. -/
theorem isEmpty_false_of_toList_ne (s : String) (h : s.toList ≠ []) : s.isEmpty = false := by
  cases hs : s.isEmpty
  · rfl
  · have he : s = "" := (String.isEmpty_iff s).mp hs
    rw [he] at h
    exact absurd rfl h

/-- `labelItem` on an encoded label evaluates to the item string. -/
theorem labelItem_encoded (l : ImageProcessor.VisionLabel) :
    MessageGenerator.labelItem
        (.obj [("description", .str l.description), ("score", .num l.score)]) =
      .ok (labelItemStr l) := rfl

/-- `objectItem` on an encoded object evaluates to the item string. -/
theorem objectItem_encoded (o : ImageProcessor.VisionObject) :
    MessageGenerator.objectItem (.obj [("name", .str o.name), ("score", .num o.score)]) =
      .ok (objectItemStr o) := rfl

/-- The labels comprehension over encoded labels. -/
theorem mapM_labelItem_encoded (ls : List ImageProcessor.VisionLabel) :
    (ls.map (fun l =>
        Json.obj [("description", .str l.description), ("score", .num l.score)])).mapM
      MessageGenerator.labelItem = .ok (ls.map labelItemStr) := by
  induction ls with
  | nil => rfl
  | cons l rest ih =>
    rw [List.map_cons, List.mapM_cons, labelItem_encoded, except_ok_bind, ih]
    rfl

/-- The objects comprehension over encoded objects. -/
theorem mapM_objectItem_encoded (os : List ImageProcessor.VisionObject) :
    (os.map (fun o => Json.obj [("name", .str o.name), ("score", .num o.score)])).mapM
      MessageGenerator.objectItem = .ok (os.map objectItemStr) := by
  induction os with
  | nil => rfl
  | cons o rest ih =>
    rw [List.map_cons, List.mapM_cons, objectItem_encoded, except_ok_bind, ih]
    rfl

/-- `format_analysis_result` on a JSON-encoded analysis result produces the
derived normal forms. -/
theorem format_analysis_result_encoded (ar : ImageProcessor.AnalysisOut) :
    MessageGenerator.format_analysis_result (ImageProcessor.analysisOutJson ar) =
      .ok (labelsStrOf ar, objectsStrOf ar, textStrOf ar) := by
  have h1 : (ImageProcessor.analysisOutJson ar).pyGet "labels" (.arr []) =
      .ok (.arr (ar.labels.map (fun l =>
        Json.obj [("description", .str l.description), ("score", .num l.score)]))) := rfl
  have h2 : (ImageProcessor.analysisOutJson ar).pyGet "objects" (.arr []) =
      .ok (.arr (ar.objects.map (fun o =>
        Json.obj [("name", .str o.name), ("score", .num o.score)]))) := rfl
  have h3 : (ImageProcessor.analysisOutJson ar).pyGet "text" (.str "") =
      .ok (.str ar.text) := rfl
  unfold MessageGenerator.format_analysis_result
  rw [h1, except_ok_bind]
  rw [show (Json.arr (ar.labels.map (fun l =>
      Json.obj [("description", .str l.description), ("score", .num l.score)]))).pyIterate =
    .ok (ar.labels.map (fun l =>
      Json.obj [("description", .str l.description), ("score", .num l.score)])) from rfl]
  rw [except_ok_bind, mapM_labelItem_encoded, except_ok_bind]
  rw [h2, except_ok_bind]
  rw [show (Json.arr (ar.objects.map (fun o =>
      Json.obj [("name", .str o.name), ("score", .num o.score)]))).pyIterate =
    .ok (ar.objects.map (fun o =>
      Json.obj [("name", .str o.name), ("score", .num o.score)])) from rfl]
  rw [except_ok_bind, mapM_objectItem_encoded, except_ok_bind]
  rw [h3, except_ok_bind, except_pure_eq]
  unfold labelsStrOf objectsStrOf textStrOf
  rw [apply_ite Json.pyStr]
  rfl

/-- An item string is never the empty character list. -/
theorem labelItemStr_toList_ne (l : ImageProcessor.VisionLabel) :
    (labelItemStr l).toList ≠ [] := by
  unfold labelItemStr
  simp [str_toList_append]

/-- An object item string is never the empty character list. -/
theorem objectItemStr_toList_ne (o : ImageProcessor.VisionObject) :
    (objectItemStr o).toList ≠ [] := by
  unfold objectItemStr
  simp [str_toList_append]

/-- A join of non-empty items over a non-empty list is non-empty. -/
theorem strJoin_isEmpty_false (sep : String) (xs : List String) (hne : xs ≠ [])
    (hit : ∀ x ∈ xs, x.toList ≠ []) : (strJoin sep xs).isEmpty = false := by
  apply isEmpty_false_of_toList_ne
  cases xs with
  | nil => exact absurd rfl hne
  | cons x ys =>
    cases ys with
    | nil =>
      exact hit x (List.mem_cons_self x [])
    | cons z zs =>
      rw [strJoin, str_toList_append, str_toList_append]
      intro hcontra
      rcases List.append_eq_nil.mp hcontra with ⟨hcontra1, _⟩
      rcases List.append_eq_nil.mp hcontra1 with ⟨hx, _⟩
      exact hit x (List.mem_cons_self x _) hx

/-- Every label's description is embedded in the joined labels string. -/
theorem desc_infix_labelsStrOf (ar : ImageProcessor.AnalysisOut)
    (l : ImageProcessor.VisionLabel) (hl : l ∈ ar.labels) :
    l.description.toList <:+: (labelsStrOf ar).toList := by
  unfold labelsStrOf
  have hne : (strJoin ", " (ar.labels.map labelItemStr)).isEmpty = false := by
    apply strJoin_isEmpty_false
    · intro hmap
      rw [List.map_eq_nil_iff] at hmap
      rw [hmap] at hl
      simp at hl
    · intro x hx
      obtain ⟨y, _, rfl⟩ := List.mem_map.mp hx
      exact labelItemStr_toList_ne y
  rw [if_neg (by simp [hne])]
  have hitem : l.description.toList <:+: (labelItemStr l).toList := by
    unfold labelItemStr
    simp only [str_toList_append]
    exact infixL (infixL (infixL (List.infix_refl _)))
  exact hitem.trans (mem_infix_strJoin ", " _ _ (List.mem_map_of_mem _ hl))

/-- Every object's name is embedded in the joined objects string. -/
theorem name_infix_objectsStrOf (ar : ImageProcessor.AnalysisOut)
    (o : ImageProcessor.VisionObject) (ho : o ∈ ar.objects) :
    o.name.toList <:+: (objectsStrOf ar).toList := by
  unfold objectsStrOf
  have hne : (strJoin ", " (ar.objects.map objectItemStr)).isEmpty = false := by
    apply strJoin_isEmpty_false
    · intro hmap
      rw [List.map_eq_nil_iff] at hmap
      rw [hmap] at ho
      simp at ho
    · intro x hx
      obtain ⟨y, _, rfl⟩ := List.mem_map.mp hx
      exact objectItemStr_toList_ne y
  rw [if_neg (by simp [hne])]
  have hitem : o.name.toList <:+: (objectItemStr o).toList := by
    unfold objectItemStr
    simp only [str_toList_append]
    exact infixL (infixL (infixL (List.infix_refl _)))
  exact hitem.trans (mem_infix_strJoin ", " _ _ (List.mem_map_of_mem _ ho))

/-- `construct_prompt` at scenario `plant` on an encoded analysis result. -/
theorem construct_prompt_plant (ar : ImageProcessor.AnalysisOut) :
    MessageGenerator.construct_prompt "plant" (ImageProcessor.analysisOutJson ar) =
      .ok (MessageGenerator.plantTemplate (labelsStrOf ar) (objectsStrOf ar) (textStrOf ar)) := by
  unfold MessageGenerator.construct_prompt MessageGenerator.construct_promptJ
  rw [show (Json.str "plant").pyInDictKeys
      (MessageGenerator.PROMPT_TEMPLATES.map (fun p => p.1)) = .ok true from rfl]
  rw [except_ok_bind, if_neg (by simp), format_analysis_result_encoded ar, except_ok_bind]
  rfl

/-- `construct_prompt` at scenario `closet` on an encoded analysis result. -/
theorem construct_prompt_closet (ar : ImageProcessor.AnalysisOut) :
    MessageGenerator.construct_prompt "closet" (ImageProcessor.analysisOutJson ar) =
      .ok (MessageGenerator.closetTemplate (labelsStrOf ar) (objectsStrOf ar) (textStrOf ar)) := by
  unfold MessageGenerator.construct_prompt MessageGenerator.construct_promptJ
  rw [show (Json.str "closet").pyInDictKeys
      (MessageGenerator.PROMPT_TEMPLATES.map (fun p => p.1)) = .ok true from rfl]
  rw [except_ok_bind, if_neg (by simp), format_analysis_result_encoded ar, except_ok_bind]
  rfl

/-- `construct_prompt` at scenario `fridge` on an encoded analysis result. -/
theorem construct_prompt_fridge (ar : ImageProcessor.AnalysisOut) :
    MessageGenerator.construct_prompt "fridge" (ImageProcessor.analysisOutJson ar) =
      .ok (MessageGenerator.fridgeTemplate (labelsStrOf ar) (objectsStrOf ar) (textStrOf ar)) := by
  unfold MessageGenerator.construct_prompt MessageGenerator.construct_promptJ
  rw [show (Json.str "fridge").pyInDictKeys
      (MessageGenerator.PROMPT_TEMPLATES.map (fun p => p.1)) = .ok true from rfl]
  rw [except_ok_bind, if_neg (by simp), format_analysis_result_encoded ar, except_ok_bind]
  rfl

/-- Everything embedded in the variant header is embedded in the variant
prompt, whatever the conditional appends do. -/
theorem infix_variant_of_header (labels : List DeployImageProcessor.DLabel)
    (objects : List DeployImageProcessor.DObject) (text : String)
    (props : List (String × String)) (context : Option String) (x : List Char)
    (h : x <:+: (DeployMessageGenerator.variantHeader labels objects props).toList) :
    x <:+: (DeployMessageGenerator.construct_prompt_variant labels objects text props
      context).toList := by
  unfold DeployMessageGenerator.construct_prompt_variant
  revert h
  generalize DeployMessageGenerator.variantHeader labels objects props = H
  intro h
  cases context with
  | none =>
    dsimp only
    split_ifs <;> (simp only [str_toList_append]; repeat' (first | exact h | apply infixL))
  | some c =>
    dsimp only
    split_ifs <;> (simp only [str_toList_append]; repeat' (first | exact h | apply infixL))

/-- The description of each of the first five labels is embedded in the
variant header. -/
theorem infix_header_labels (labels : List DeployImageProcessor.DLabel)
    (objects : List DeployImageProcessor.DObject) (props : List (String × String))
    (l : DeployImageProcessor.DLabel) (hl : l ∈ labels.take 5) :
    l.description.toList <:+: (DeployMessageGenerator.variantHeader labels objects props).toList := by
  unfold DeployMessageGenerator.variantHeader
  simp only [str_toList_append]
  apply infixL
  apply infixR
  exact mem_infix_strJoin ", " _ _ (List.mem_map_of_mem _ hl)

/-- The name of each of the first ten objects is embedded in the variant
header. -/
theorem infix_header_objects (labels : List DeployImageProcessor.DLabel)
    (objects : List DeployImageProcessor.DObject) (props : List (String × String))
    (o : DeployImageProcessor.DObject) (ho : o ∈ objects.take 10) :
    o.name.toList <:+: (DeployMessageGenerator.variantHeader labels objects props).toList := by
  unfold DeployMessageGenerator.variantHeader
  simp only [str_toList_append]
  apply infixL
  apply infixL
  apply infixL
  apply infixR
  exact mem_infix_strJoin ", " _ _ (List.mem_map_of_mem _ ho)

/-! ## C4 (corrected) -/

/-- A failed containment scan refutes infix containment. -/
theorem not_infix_of_listContainsSub_false (pat l : List Char)
    (h : listContainsSub pat l = false) : ¬ (pat <:+: l) := by
  intro hinf
  obtain ⟨s, t, hst⟩ := hinf
  cases hp : pat with
  | nil =>
    rw [hp] at h
    cases l with
    | nil => exact absurd h (by simp [listContainsSub])
    | cons c rest =>
      rw [listContainsSub] at h
      rw [show (([] : List Char).isPrefixOf (c :: rest)) = true from rfl] at h
      simp at h
  | cons p ps =>
    rw [← hst] at h
    rw [show s ++ pat ++ t = s ++ (pat ++ t) from List.append_assoc s pat t] at h
    rw [listContainsSub_of_shape pat (by rw [hp]; simp) s t] at h
    exact Bool.noConfusion h

set_option maxRecDepth 8192 in
/-- Concrete scan: the sixth label's description does not occur in the
variant prompt built from six labels. -/
theorem variant_sixth_label_scan :
    listContainsSub "zz6zz".toList
      (DeployMessageGenerator.construct_prompt_variant
        [⟨"l1", 1, 1⟩, ⟨"l2", 1, 1⟩, ⟨"l3", 1, 1⟩, ⟨"l4", 1, 1⟩, ⟨"l5", 1, 1⟩, ⟨"zz6zz", 1, 1⟩]
        [] "" [] none).toList = false := by
  decide

/-- C4 counterexample: the deploy-variant prompt builder truncates to the
first 5 labels, so a sixth label passed in is not embedded in the prompt —
and the call returns a prompt rather than failing although the
environment/scenario is not in the known set. -/
theorem C4_counterexample_variant_truncates :
    ¬ ("zz6zz".toList <:+:
      (DeployMessageGenerator.construct_prompt_variant
        [⟨"l1", 1, 1⟩, ⟨"l2", 1, 1⟩, ⟨"l3", 1, 1⟩, ⟨"l4", 1, 1⟩, ⟨"l5", 1, 1⟩, ⟨"zz6zz", 1, 1⟩]
        [] "" [] none).toList) :=
  not_infix_of_listContainsSub_false _ _ variant_sixth_label_scan

/-- C4 (amended): the primary `construct_prompt` fails with an error for
every scenario outside the closed set `plant`/`closet`/`fridge`, and for
each known scenario its prompt contains that scenario's fixed expert-role
preamble and embeds the comma-joined labels and objects strings and with
them every label description and object name passed in; the deploy
variant's `_construct_prompt` never fails (an unknown environment only
omits the focus block) and embeds only the first 5 labels and the first 10
objects. -/
theorem C4_construct_prompt_embedding :
    (∀ (scenario : String) (ar : ImageProcessor.AnalysisOut),
      scenario ∉ ["plant", "closet", "fridge"] →
      MessageGenerator.construct_prompt scenario (ImageProcessor.analysisOutJson ar) =
        .error (.valueError ("Invalid scenario: " ++ scenario))) ∧
    (∀ ar : ImageProcessor.AnalysisOut, ∃ p,
      MessageGenerator.construct_prompt "plant" (ImageProcessor.analysisOutJson ar) = .ok p ∧
      "あなたは植物ケアの専門家です。".toList <:+: p.toList ∧
      (labelsStrOf ar).toList <:+: p.toList ∧
      (objectsStrOf ar).toList <:+: p.toList ∧
      (∀ l ∈ ar.labels, l.description.toList <:+: p.toList) ∧
      (∀ o ∈ ar.objects, o.name.toList <:+: p.toList)) ∧
    (∀ ar : ImageProcessor.AnalysisOut, ∃ p,
      MessageGenerator.construct_prompt "closet" (ImageProcessor.analysisOutJson ar) = .ok p ∧
      "あなたは整理収納の専門家です。".toList <:+: p.toList ∧
      (labelsStrOf ar).toList <:+: p.toList ∧
      (objectsStrOf ar).toList <:+: p.toList ∧
      (∀ l ∈ ar.labels, l.description.toList <:+: p.toList) ∧
      (∀ o ∈ ar.objects, o.name.toList <:+: p.toList)) ∧
    (∀ ar : ImageProcessor.AnalysisOut, ∃ p,
      MessageGenerator.construct_prompt "fridge" (ImageProcessor.analysisOutJson ar) = .ok p ∧
      "あなたは食品管理と冷蔵庫整理の専門家です。".toList <:+: p.toList ∧
      (labelsStrOf ar).toList <:+: p.toList ∧
      (objectsStrOf ar).toList <:+: p.toList ∧
      (∀ l ∈ ar.labels, l.description.toList <:+: p.toList) ∧
      (∀ o ∈ ar.objects, o.name.toList <:+: p.toList)) ∧
    (∀ (labels : List DeployImageProcessor.DLabel)
      (objects : List DeployImageProcessor.DObject) (text : String)
      (props : List (String × String)) (context : Option String),
      (∀ l ∈ labels.take 5, l.description.toList <:+:
        (DeployMessageGenerator.construct_prompt_variant labels objects text props
          context).toList) ∧
      (∀ o ∈ objects.take 10, o.name.toList <:+:
        (DeployMessageGenerator.construct_prompt_variant labels objects text props
          context).toList)) := by
  refine ⟨?_, ?_, ?_, ?_, ?_⟩
  · intro scenario ar hnmem
    have hcont : (["plant", "closet", "fridge"].contains scenario) = false := by
      rw [Bool.eq_false_iff]
      intro hc
      exact hnmem (List.mem_of_elem_eq_true hc)
    unfold MessageGenerator.construct_prompt MessageGenerator.construct_promptJ
    rw [show (Json.str scenario).pyInDictKeys
        (MessageGenerator.PROMPT_TEMPLATES.map (fun p => p.1)) =
      .ok (["plant", "closet", "fridge"].contains scenario) from rfl]
    rw [hcont, except_ok_bind]
    simp [Json.pyStr]
  · intro ar
    refine ⟨_, construct_prompt_plant ar, ?_, ?_, ?_, ?_, ?_⟩
    · unfold MessageGenerator.plantTemplate
      simp only [str_toList_append]
      apply infixL; apply infixL; apply infixL; apply infixL; apply infixL; apply infixL
      decide
    · unfold MessageGenerator.plantTemplate
      simp only [str_toList_append]
      apply infixL; apply infixL; apply infixL; apply infixL; apply infixL; apply infixR
      exact List.infix_refl _
    · unfold MessageGenerator.plantTemplate
      simp only [str_toList_append]
      apply infixL; apply infixL; apply infixL; apply infixR
      exact List.infix_refl _
    · intro l hl
      unfold MessageGenerator.plantTemplate
      simp only [str_toList_append]
      apply infixL; apply infixL; apply infixL; apply infixL; apply infixL; apply infixR
      exact desc_infix_labelsStrOf ar l hl
    · intro o ho
      unfold MessageGenerator.plantTemplate
      simp only [str_toList_append]
      apply infixL; apply infixL; apply infixL; apply infixR
      exact name_infix_objectsStrOf ar o ho
  · intro ar
    refine ⟨_, construct_prompt_closet ar, ?_, ?_, ?_, ?_, ?_⟩
    · unfold MessageGenerator.closetTemplate
      simp only [str_toList_append]
      apply infixL; apply infixL; apply infixL; apply infixL; apply infixL; apply infixL
      decide
    · unfold MessageGenerator.closetTemplate
      simp only [str_toList_append]
      apply infixL; apply infixL; apply infixL; apply infixL; apply infixL; apply infixR
      exact List.infix_refl _
    · unfold MessageGenerator.closetTemplate
      simp only [str_toList_append]
      apply infixL; apply infixL; apply infixL; apply infixR
      exact List.infix_refl _
    · intro l hl
      unfold MessageGenerator.closetTemplate
      simp only [str_toList_append]
      apply infixL; apply infixL; apply infixL; apply infixL; apply infixL; apply infixR
      exact desc_infix_labelsStrOf ar l hl
    · intro o ho
      unfold MessageGenerator.closetTemplate
      simp only [str_toList_append]
      apply infixL; apply infixL; apply infixL; apply infixR
      exact name_infix_objectsStrOf ar o ho
  · intro ar
    refine ⟨_, construct_prompt_fridge ar, ?_, ?_, ?_, ?_, ?_⟩
    · unfold MessageGenerator.fridgeTemplate
      simp only [str_toList_append]
      apply infixL; apply infixL; apply infixL; apply infixL; apply infixL; apply infixL
      decide
    · unfold MessageGenerator.fridgeTemplate
      simp only [str_toList_append]
      apply infixL; apply infixL; apply infixL; apply infixL; apply infixL; apply infixR
      exact List.infix_refl _
    · unfold MessageGenerator.fridgeTemplate
      simp only [str_toList_append]
      apply infixL; apply infixL; apply infixL; apply infixR
      exact List.infix_refl _
    · intro l hl
      unfold MessageGenerator.fridgeTemplate
      simp only [str_toList_append]
      apply infixL; apply infixL; apply infixL; apply infixL; apply infixL; apply infixR
      exact desc_infix_labelsStrOf ar l hl
    · intro o ho
      unfold MessageGenerator.fridgeTemplate
      simp only [str_toList_append]
      apply infixL; apply infixL; apply infixL; apply infixR
      exact name_infix_objectsStrOf ar o ho
  · intro labels objects text props context
    constructor
    · intro l hl
      exact infix_variant_of_header labels objects text props context _
        (infix_header_labels labels objects props l hl)
    · intro o ho
      exact infix_variant_of_header labels objects text props context _
        (infix_header_objects labels objects props o ho)

/-- C4 witness: the unknown-scenario clause at `"garage"` and the variant
truncation clause at a single label. -/
theorem C4_construct_prompt_embedding_witness :
    MessageGenerator.construct_prompt "garage"
        (ImageProcessor.analysisOutJson ⟨[], [], ""⟩) =
      .error (.valueError ("Invalid scenario: " ++ "garage")) ∧
    "zz1".toList <:+:
      (DeployMessageGenerator.construct_prompt_variant [⟨"zz1", 1, 1⟩] [] "" [] none).toList := by
  constructor
  · exact C4_construct_prompt_embedding.1 "garage" ⟨[], [], ""⟩ (by decide)
  · exact (C4_construct_prompt_embedding.2.2.2.2 [⟨"zz1", 1, 1⟩] [] "" [] none).1
      ⟨"zz1", 1, 1⟩ (by simp)

/-! ## C5 -/

/-- C5: for every prompt, whenever the text-generation provider call raises
any exception, `generate_advice` returns exactly `DEFAULT_ADVICE` as the
advice, `success = false`, and a non-empty error string, and the error is
the safety-filter annotation exactly when the exception message contains
`"safety"` case-insensitively. -/
theorem C5_generate_advice_provider_failure (prompt e : String) :
    (MessageGenerator.generate_advice prompt (.error e)).1 = false ∧
    (MessageGenerator.generate_advice prompt (.error e)).2.1 = MessageGenerator.DEFAULT_ADVICE ∧
    ∃ m, (MessageGenerator.generate_advice prompt (.error e)).2.2 = some m ∧ m ≠ "" ∧
      (("Content blocked due to safety settings: ".toList <+: m.toList) ↔
        strContains (strLower e) "safety" = true) := by
  unfold MessageGenerator.generate_advice
  by_cases hs : strContains (strLower e) "safety" = true
  · refine ⟨by simp [hs], by simp [hs], "Content blocked due to safety settings: " ++ e,
      by simp [hs], ?_, ?_⟩
    · intro hempty
      have h0 := congrArg String.toList hempty
      rw [str_toList_append] at h0
      rcases List.append_eq_nil.mp h0 with ⟨h1, _⟩
      exact absurd h1 (by decide)
    · constructor
      · intro _
        exact hs
      · intro _
        rw [str_toList_append]
        exact List.prefix_append _ _
  · refine ⟨by simp [hs], by simp [hs], "Error generating advice: " ++ e,
      by simp [hs], ?_, ?_⟩
    · intro hempty
      have h0 := congrArg String.toList hempty
      rw [str_toList_append] at h0
      rcases List.append_eq_nil.mp h0 with ⟨h1, _⟩
      exact absurd h1 (by decide)
    · constructor
      · intro hp
        exfalso
        obtain ⟨t, ht⟩ := hp
        rw [str_toList_append] at ht
        have hC : "Content blocked due to safety settings: ".toList =
            'C' :: "ontent blocked due to safety settings: ".toList := by decide
        have hE : "Error generating advice: ".toList =
            'E' :: "rror generating advice: ".toList := by decide
        rw [hC, hE, List.cons_append, List.cons_append] at ht
        injection ht with h1 _
        exact absurd h1 (by decide)
      · intro hcontra
        exact absurd hcontra hs

/-! ## C9 -/

/-- A key with a binding is among the field names. -/
theorem mem_keys_of_lookup {β : Type} (fs : List (String × β)) (k : String) (v : β)
    (h : fs.lookup k = some v) : k ∈ fs.map Prod.fst := by
  induction fs with
  | nil => simp [List.lookup] at h
  | cons p rest ih =>
    obtain ⟨k', v'⟩ := p
    rw [List.lookup] at h
    by_cases hk : (k == k') = true
    · have he : k = k' := eq_of_beq hk
      simp [he]
    · rw [Bool.not_eq_true] at hk
      rw [hk] at h
      simp only [List.map_cons, List.mem_cons]
      exact Or.inr (ih h)

/-- On a provider exception, `generate_advice` yields the default advice and
a non-empty error message. -/
theorem generate_advice_error_parts (prompt e : String) :
    ∃ m, MessageGenerator.generate_advice prompt (.error e) =
      (false, MessageGenerator.DEFAULT_ADVICE, some m) ∧ m ≠ "" := by
  unfold MessageGenerator.generate_advice
  by_cases hs : strContains (strLower e) "safety" = true
  · exact ⟨"Content blocked due to safety settings: " ++ e, by simp [hs],
      append_ne_empty_of_left _ _ (by decide)⟩
  · exact ⟨"Error generating advice: " ++ e, by simp [hs],
      append_ne_empty_of_left _ _ (by decide)⟩

/-- C9: a POST to the message generator that passes validation (with a
well-formed analysis result) always returns HTTP 200, even when the
provider call fails for any reason; the failure is reported only inside the
body as `success = false`, the default-advice literal, and a non-null,
non-empty error string. -/
theorem C9_generate_message_provider_failure_is_200
    (fs : List (String × Json)) (s : String) (ar : ImageProcessor.AnalysisOut)
    (provider : Except String String)
    (hs : fs.lookup "scenario" = some (.str s))
    (hmem : s ∈ ["plant", "closet", "fridge"])
    (har : fs.lookup "analysis_result" = some (ImageProcessor.analysisOutJson ar)) :
    (MessageGenerator.generate_message ⟨"POST", some (.obj fs)⟩ (.ok ()) provider).status
      = 200 ∧
    ∀ e, provider = .error e →
      ∃ m, (MessageGenerator.generate_message ⟨"POST", some (.obj fs)⟩ (.ok ()) provider).body
          = MessageGenerator.mgBody false (.str MessageGenerator.DEFAULT_ADVICE) (.str m) ∧
        m ≠ "" := by
  have hv := validate_mg_pass fs s hs hmem (mem_keys_of_lookup fs _ _ har)
  have hpi_s : (Json.obj fs).pyIndex "scenario" = .ok (.str s) := by
    simp [Json.pyIndex, hs]
  have hpi_ar : (Json.obj fs).pyIndex "analysis_result" =
      .ok (ImageProcessor.analysisOutJson ar) := by
    simp [Json.pyIndex, har]
  obtain ⟨p, hp⟩ : ∃ p, MessageGenerator.construct_promptJ (.str s)
      (ImageProcessor.analysisOutJson ar) = .ok p := by
    rcases (by simpa using hmem : s = "plant" ∨ s = "closet" ∨ s = "fridge") with rfl | rfl | rfl
    · exact ⟨_, construct_prompt_plant ar⟩
    · exact ⟨_, construct_prompt_closet ar⟩
    · exact ⟨_, construct_prompt_fridge ar⟩
  have hgm : MessageGenerator.generate_message ⟨"POST", some (.obj fs)⟩ (.ok ()) provider =
      ⟨200, MessageGenerator.mgBody (MessageGenerator.generate_advice p provider).1
        (.str (MessageGenerator.generate_advice p provider).2.1)
        (optStrJson (MessageGenerator.generate_advice p provider).2.2), []⟩ := by
    unfold MessageGenerator.generate_message MessageGenerator.generate_message_try
    simp [hv, hpi_s, hpi_ar, hp, except_ok_bind, except_pure_eq]
  constructor
  · rw [hgm]
  · intro e he
    subst he
    obtain ⟨m, hm, hmne⟩ := generate_advice_error_parts p e
    rw [hgm, hm]
    exact ⟨m, rfl, hmne⟩

/-- C9 witness: a valid `plant` request with an empty analysis result and a
failing provider. -/
theorem C9_generate_message_provider_failure_is_200_witness :
    (MessageGenerator.generate_message ⟨"POST", some (.obj [("scenario", .str "plant"),
        ("analysis_result", ImageProcessor.analysisOutJson ⟨[], [], ""⟩)])⟩ (.ok ())
      (.error "boom")).status = 200 ∧
    ∃ m, (MessageGenerator.generate_message ⟨"POST", some (.obj [("scenario", .str "plant"),
        ("analysis_result", ImageProcessor.analysisOutJson ⟨[], [], ""⟩)])⟩ (.ok ())
      (.error "boom")).body =
        MessageGenerator.mgBody false (.str MessageGenerator.DEFAULT_ADVICE) (.str m) ∧
      m ≠ "" := by
  have h := C9_generate_message_provider_failure_is_200
    [("scenario", .str "plant"), ("analysis_result", ImageProcessor.analysisOutJson ⟨[], [], ""⟩)]
    "plant" ⟨[], [], ""⟩ (.error "boom") rfl (by decide) rfl
  exact ⟨h.1, h.2 "boom" rfl⟩

/-! ## C8 -/

/-- C8: when the deploy-variant vision client failed to initialize, every
uploaded image yields the same fixed mock analysis (fixed label, object,
text and color literals) annotated with `environment_type = "kitchen"`,
`cleanliness_level = "clean"` and `organization_level = "minimal"`. -/
theorem C8_mock_analysis_deterministic (image : List Nat) :
    DeployImageProcessor.process_image image none =
      .ok ⟨DeployImageProcessor.mockLabels, DeployImageProcessor.mockObjects,
        some "Kitchen with modern appliances", DeployImageProcessor.mockColors,
        ⟨"kitchen", "clean", "minimal"⟩⟩ := by
  rfl

/-! ## C6 (corrected) -/

/-- C6 counterexample: `"????"` is not valid base64 (none of its characters
is even in the base64 alphabet), yet `decode_image` does not raise — it
silently discards the invalid characters and returns `b''`. -/
theorem C6_counterexample_invalid_input_decodes :
    ImageProcessor.decode_image "????" = .ok [] ∧
    ("????".toList.all (fun c => (b64val c).isNone)) = true := by
  exact ⟨rfl, by decide⟩

/-- C6 (amended): `decode_image` strips an optional `"base64,"`-terminated
prefix and base64-decodes the remainder, with
`decode_image "data:image/jpeg;base64,YQ=="` = `decode_image "YQ=="` =
`[97]` (the single byte `b'a'`); characters outside the base64 alphabet are
discarded rather than rejected, so a string of ASCII characters that are all
outside the alphabet (and not `=`) decodes to `b''` without error, and a
decode error is raised when the retained data characters end mid-quad
(e.g. `"YQ"`). -/
theorem C6_decode_image_behavior :
    ImageProcessor.decode_image "data:image/jpeg;base64,YQ==" = .ok [97] ∧
    ImageProcessor.decode_image "YQ==" = .ok [97] ∧
    ImageProcessor.decode_image "YQ" =
      .error (.valueError "Invalid image data: Incorrect padding") ∧
    ∀ s : String, (∀ c ∈ s.toList, b64val c = none ∧ c ≠ '=' ∧ c.toNat < 128) →
      ImageProcessor.decode_image s = .ok [] := by
  refine ⟨rfl, rfl, rfl, ?_⟩
  intro s h
  unfold ImageProcessor.decode_image
  have hmark : strContains s "base64," = false :=
    no_marker_of_no_alphabet s.toList (fun c hc => (h c hc).1)
  rw [hmark]
  simp only [Bool.false_eq_true, if_false]
  unfold b64decode
  have hascii : s.toList.all (fun c => c.toNat < 128) = true := by
    rw [List.all_eq_true]
    intro c hc
    exact decide_eq_true (h c hc).2.2
  rw [if_pos hascii]
  rw [a2b_base64_skip_all s.toList 0 0 [] (fun c hc => ⟨(h c hc).1, (h c hc).2.1⟩)]
  rfl

/-- C6 witness: the all-invalid-characters clause of
`C6_decode_image_behavior` at the concrete input `"!!"`. -/
theorem C6_decode_image_behavior_witness :
    ImageProcessor.decode_image "!!" = .ok [] :=
  C6_decode_image_behavior.2.2.2 "!!" (by decide)

/-! ## C3 (corrected) -/

/-- C3 counterexample: the deploy-variant processor keeps a provider label
with score `0.513 < 0.6` unchanged — no threshold filter and no rounding is
applied on its provider path. -/
theorem C3_counterexample_no_filter_in_deploy_variant :
    DeployImageProcessor.process_image []
        (some (.ok ⟨[⟨"Thing", 0.513, 0.5⟩], [], [], []⟩)) =
      .ok ⟨[⟨"Thing", 0.513, 0.5⟩], [], none, [], ⟨"unknown", "unknown", "minimal"⟩⟩ ∧
    (0.513 : ℚ) < 0.6 ∧ ImageProcessor.round2 0.513 ≠ 0.513 := by
  refine ⟨rfl, by norm_num, ?_⟩
  unfold ImageProcessor.round2 ImageProcessor.roundHalfEven
  norm_num

/-- C3 (amended): the primary `analyze_image` never returns a label or
object below the fixed `0.6` threshold and rounds every retained score to 2
decimal places, for every provider response; the deploy variant's mock path
also satisfies both properties (its fixed scores are all `≥ 0.6` with two
decimals), but its provider path copies scores unfiltered and unrounded. -/
theorem C3_analyze_image_threshold (image_bytes : List Nat)
    (resp : ImageProcessor.VisionResponse) (out : ImageProcessor.AnalysisOut)
    (h : ImageProcessor.analyze_image image_bytes (.ok resp) = .ok out) :
    (∀ l ∈ out.labels, ImageProcessor.MIN_CONFIDENCE_SCORE ≤ l.score ∧
      ImageProcessor.round2 l.score = l.score) ∧
    (∀ o ∈ out.objects, ImageProcessor.MIN_CONFIDENCE_SCORE ≤ o.score ∧
      ImageProcessor.round2 o.score = o.score) ∧
    (∀ image, ∃ r, DeployImageProcessor.process_image image none = .ok r ∧
      (∀ l ∈ r.labels, ImageProcessor.MIN_CONFIDENCE_SCORE ≤ l.score ∧
        ImageProcessor.round2 l.score = l.score) ∧
      (∀ o ∈ r.objects, ImageProcessor.MIN_CONFIDENCE_SCORE ≤ o.score ∧
        ImageProcessor.round2 o.score = o.score)) := by
  unfold ImageProcessor.analyze_image at h
  injection h with h
  subst h
  refine ⟨?_, ?_, ?_⟩
  · intro l hl
    simp only [List.mem_map, List.mem_filter] at hl
    obtain ⟨x, ⟨_, hscore⟩, rfl⟩ := hl
    have hs : ImageProcessor.MIN_CONFIDENCE_SCORE ≤ x.score := of_decide_eq_true hscore
    have hs6 : (0.6 : ℚ) ≤ x.score := hs
    exact ⟨round2_threshold x.score hs6, round2_round2 x.score⟩
  · intro o ho
    simp only [List.mem_map, List.mem_filter] at ho
    obtain ⟨x, ⟨_, hscore⟩, rfl⟩ := ho
    have hs : ImageProcessor.MIN_CONFIDENCE_SCORE ≤ x.score := of_decide_eq_true hscore
    have hs6 : (0.6 : ℚ) ≤ x.score := hs
    exact ⟨round2_threshold x.score hs6, round2_round2 x.score⟩
  · intro image
    refine ⟨_, C8_mock_analysis_deterministic image, ?_, ?_⟩
    · intro l hl
      fin_cases hl <;>
        exact ⟨by norm_num [ImageProcessor.MIN_CONFIDENCE_SCORE],
          by norm_num [ImageProcessor.round2, ImageProcessor.roundHalfEven]⟩
    · intro o ho
      fin_cases ho <;>
        exact ⟨by norm_num [ImageProcessor.MIN_CONFIDENCE_SCORE],
          by norm_num [ImageProcessor.round2, ImageProcessor.roundHalfEven]⟩

/-- C3 witness: `C3_analyze_image_threshold` at the empty provider
response. -/
theorem C3_analyze_image_threshold_witness :
    (∀ l ∈ (⟨[], [], ""⟩ : ImageProcessor.AnalysisOut).labels,
      ImageProcessor.MIN_CONFIDENCE_SCORE ≤ l.score ∧
      ImageProcessor.round2 l.score = l.score) ∧
    (∀ o ∈ (⟨[], [], ""⟩ : ImageProcessor.AnalysisOut).objects,
      ImageProcessor.MIN_CONFIDENCE_SCORE ≤ o.score ∧
      ImageProcessor.round2 o.score = o.score) ∧
    (∀ image, ∃ r, DeployImageProcessor.process_image image none = .ok r ∧
      (∀ l ∈ r.labels, ImageProcessor.MIN_CONFIDENCE_SCORE ≤ l.score ∧
        ImageProcessor.round2 l.score = l.score) ∧
      (∀ o ∈ r.objects, ImageProcessor.MIN_CONFIDENCE_SCORE ≤ o.score ∧
        ImageProcessor.round2 o.score = o.score)) :=
  C3_analyze_image_threshold [] ⟨[], [], []⟩ ⟨[], [], ""⟩ rfl

/-! ## C1 and C7 -/

/-- `handle_cors` does not change the status. -/
theorem handle_cors_status (req : ApiGateway.GwRequest) (r : HttpResponse) :
    (ApiGateway.handle_cors req r).status = r.status := rfl

/-- `handle_cors` does not change the body. -/
theorem handle_cors_body (req : ApiGateway.GwRequest) (r : HttpResponse) :
    (ApiGateway.handle_cors req r).body = r.body := rfl

/-- Every successful result of the gateway `try` block is a CORS-wrapped
response with no other headers. -/
theorem api_gateway_try_ok_shape (ipUrl mgUrl : String) (req : ApiGateway.GwRequest)
    (ipPost mgPost : ApiGateway.PostResult) (r : HttpResponse)
    (h : ApiGateway.api_gateway_try ipUrl mgUrl req ipPost mgPost = .ok r) :
    ∃ s b, r = ApiGateway.handle_cors req ⟨s, b, []⟩ := by
  unfold ApiGateway.api_gateway_try at h
  obtain ⟨⟨valid, msg⟩, hv, h⟩ := except_bind_ok h
  cases valid with
  | false =>
    simp only [] at h
    rw [if_pos (by simp)] at h
    exact ⟨400, ApiGateway.jsonError msg, (Except.ok.inj h).symm⟩
  | true =>
    cases hsc : Json.pyIndex (req.body.getD .null) "scenario" with
    | error e =>
      simp [hsc, except_error_bind, except_ok_bind, except_pure_eq] at h
    | ok scen =>
    cases him : Json.pyIndex (req.body.getD .null) "image_data" with
    | error e =>
      simp [hsc, him, except_error_bind, except_ok_bind, except_pure_eq] at h
    | ok img =>
    cases hip : ApiGateway.call_image_processor ipUrl ipPost with
    | error e =>
      simp [hsc, him, hip, except_error_bind, except_ok_bind, except_pure_eq] at h
    | ok t1 =>
    obtain ⟨ok1, analysis, err1⟩ := t1
    cases ok1 with
    | false =>
      simp [hsc, him, hip, except_ok_bind, except_pure_eq] at h
      exact ⟨502, ApiGateway.jsonError err1, h.symm⟩
    | true =>
    cases hmg : ApiGateway.call_message_generator mgUrl mgPost with
    | error e =>
      simp [hsc, him, hip, hmg, except_error_bind, except_ok_bind, except_pure_eq] at h
    | ok t2 =>
    obtain ⟨ok2, advice, err2⟩ := t2
    cases ok2 with
    | false =>
      simp [hsc, him, hip, hmg, except_ok_bind, except_pure_eq] at h
      exact ⟨502, ApiGateway.jsonError err2, h.symm⟩
    | true =>
      simp [hsc, him, hip, hmg, except_ok_bind, except_pure_eq] at h
      exact ⟨200, .obj [("success", .bool true), ("advice", advice)], h.symm⟩

/-- Every gateway response is a CORS-wrapped response. -/
theorem api_gateway_cors_form (ipUrl mgUrl : String) (req : ApiGateway.GwRequest)
    (ipPost mgPost : ApiGateway.PostResult) :
    ∃ s b, ApiGateway.api_gateway ipUrl mgUrl req ipPost mgPost =
      ApiGateway.handle_cors req ⟨s, b, []⟩ := by
  unfold ApiGateway.api_gateway
  by_cases h1 : req.method = "OPTIONS"
  · rw [if_pos h1]
    exact ⟨204, .str "", rfl⟩
  · rw [if_neg h1]
    by_cases h2 : req.method ≠ "POST"
    · rw [if_pos h2]
      exact ⟨405, _, rfl⟩
    · rw [if_neg h2]
      cases htry : ApiGateway.api_gateway_try ipUrl mgUrl req ipPost mgPost with
      | error e => exact ⟨500, _, rfl⟩
      | ok r =>
        obtain ⟨s, b, rfl⟩ := api_gateway_try_ok_shape ipUrl mgUrl req ipPost mgPost r htry
        exact ⟨s, b, rfl⟩

/-- C7: every response the gateway returns, on every control path, carries
`Access-Control-Allow-Origin` equal to the request's `Origin` header (or
`"*"` when absent) together with the fixed allow-methods, allow-headers and
allow-credentials values. -/
theorem C7_cors_headers_on_every_path (ipUrl mgUrl : String) (req : ApiGateway.GwRequest)
    (ipPost mgPost : ApiGateway.PostResult) :
    (ApiGateway.api_gateway ipUrl mgUrl req ipPost mgPost).headers.lookup
      "Access-Control-Allow-Origin" = some (req.origin.getD "*") ∧
    (ApiGateway.api_gateway ipUrl mgUrl req ipPost mgPost).headers.lookup
      "Access-Control-Allow-Methods" = some "POST, OPTIONS" ∧
    (ApiGateway.api_gateway ipUrl mgUrl req ipPost mgPost).headers.lookup
      "Access-Control-Allow-Headers" = some "Content-Type, Authorization" ∧
    (ApiGateway.api_gateway ipUrl mgUrl req ipPost mgPost).headers.lookup
      "Access-Control-Allow-Credentials" = some "true" := by
  obtain ⟨s, b, heq⟩ := api_gateway_cors_form ipUrl mgUrl req ipPost mgPost
  rw [heq]
  exact ⟨rfl, rfl, rfl, rfl⟩

/-- C1: the gateway's status map — OPTIONS yields 204; any other non-POST
method yields 405; a POST failing validation yields 400; a POST whose
analyzer call fails yields 502; a POST whose analyzer succeeds but whose
generator call fails yields 502 with the upstream error string; a POST with
both upstreams succeeding yields 200 with `success: true` and the advice;
any exception raised in the `try` block yields 500. -/
theorem C1_api_gateway_status_map :
    (∀ (ipUrl mgUrl : String) (origin : Option String) (body : Option Json)
      (ipPost mgPost : ApiGateway.PostResult),
      (ApiGateway.api_gateway ipUrl mgUrl ⟨"OPTIONS", origin, body⟩ ipPost mgPost).status
        = 204) ∧
    (∀ (ipUrl mgUrl m : String) (origin : Option String) (body : Option Json)
      (ipPost mgPost : ApiGateway.PostResult), m ≠ "OPTIONS" → m ≠ "POST" →
      (ApiGateway.api_gateway ipUrl mgUrl ⟨m, origin, body⟩ ipPost mgPost).status = 405) ∧
    (∀ (ipUrl mgUrl : String) (origin : Option String) (body : Option Json)
      (ipPost mgPost : ApiGateway.PostResult) (msg : String),
      ApiGateway.validate_request body = .ok (false, some msg) →
      (ApiGateway.api_gateway ipUrl mgUrl ⟨"POST", origin, body⟩ ipPost mgPost).status = 400) ∧
    (∀ (ipUrl mgUrl : String) (origin : Option String) (fs : List (String × Json))
      (s : String) (v : Json) (ipPost mgPost : ApiGateway.PostResult) (d : Json)
      (err : Option String),
      fs.lookup "scenario" = some (.str s) → s ∈ ApiGateway.VALID_SCENARIOS →
      fs.lookup "image_data" = some v → v.truthy = true →
      ApiGateway.call_image_processor ipUrl ipPost = .ok (false, d, err) →
      (ApiGateway.api_gateway ipUrl mgUrl ⟨"POST", origin, some (.obj fs)⟩ ipPost
        mgPost).status = 502) ∧
    (∀ (ipUrl mgUrl : String) (origin : Option String) (fs : List (String × Json))
      (s : String) (v : Json) (ipPost mgPost : ApiGateway.PostResult) (a adv : Json)
      (err2 : Option String),
      fs.lookup "scenario" = some (.str s) → s ∈ ApiGateway.VALID_SCENARIOS →
      fs.lookup "image_data" = some v → v.truthy = true →
      ApiGateway.call_image_processor ipUrl ipPost = .ok (true, a, none) →
      ApiGateway.call_message_generator mgUrl mgPost = .ok (false, adv, err2) →
      (ApiGateway.api_gateway ipUrl mgUrl ⟨"POST", origin, some (.obj fs)⟩ ipPost
        mgPost).status = 502 ∧
      (ApiGateway.api_gateway ipUrl mgUrl ⟨"POST", origin, some (.obj fs)⟩ ipPost
        mgPost).body = ApiGateway.jsonError err2) ∧
    (∀ (ipUrl mgUrl : String) (origin : Option String) (fs : List (String × Json))
      (s : String) (v : Json) (ipPost mgPost : ApiGateway.PostResult) (a advice : Json),
      fs.lookup "scenario" = some (.str s) → s ∈ ApiGateway.VALID_SCENARIOS →
      fs.lookup "image_data" = some v → v.truthy = true →
      ApiGateway.call_image_processor ipUrl ipPost = .ok (true, a, none) →
      ApiGateway.call_message_generator mgUrl mgPost = .ok (true, advice, none) →
      (ApiGateway.api_gateway ipUrl mgUrl ⟨"POST", origin, some (.obj fs)⟩ ipPost
        mgPost).status = 200 ∧
      (ApiGateway.api_gateway ipUrl mgUrl ⟨"POST", origin, some (.obj fs)⟩ ipPost
        mgPost).body = .obj [("success", .bool true), ("advice", advice)]) ∧
    (∀ (ipUrl mgUrl : String) (origin : Option String) (body : Option Json)
      (ipPost mgPost : ApiGateway.PostResult) (e : PyErr),
      ApiGateway.api_gateway_try ipUrl mgUrl ⟨"POST", origin, body⟩ ipPost mgPost = .error e →
      (ApiGateway.api_gateway ipUrl mgUrl ⟨"POST", origin, body⟩ ipPost mgPost).status
        = 500) := by
  refine ⟨?_, ?_, ?_, ?_, ?_, ?_, ?_⟩
  · intro ipUrl mgUrl origin body ipPost mgPost
    rfl
  · intro ipUrl mgUrl m origin body ipPost mgPost h1 h2
    unfold ApiGateway.api_gateway
    rw [if_neg (by simpa using h1), if_pos (by simpa using h2)]
    exact handle_cors_status _ _
  · intro ipUrl mgUrl origin body ipPost mgPost msg hval
    have htry : ApiGateway.api_gateway_try ipUrl mgUrl ⟨"POST", origin, body⟩ ipPost mgPost =
        .ok (ApiGateway.handle_cors ⟨"POST", origin, body⟩
          ⟨400, ApiGateway.jsonError (some msg), []⟩) := by
      unfold ApiGateway.api_gateway_try
      rw [hval]
      rfl
    unfold ApiGateway.api_gateway
    rw [if_neg (by simp), if_neg (by simp), htry]
    exact handle_cors_status _ _
  · intro ipUrl mgUrl origin fs s v ipPost mgPost d err hs hmem hv htr hip
    have hval := validate_gw_pass fs s v hs hmem hv htr
    have htry : ApiGateway.api_gateway_try ipUrl mgUrl ⟨"POST", origin, some (.obj fs)⟩
        ipPost mgPost =
        .ok (ApiGateway.handle_cors ⟨"POST", origin, some (.obj fs)⟩
          ⟨502, ApiGateway.jsonError err, []⟩) := by
      unfold ApiGateway.api_gateway_try
      simp [hval, Json.pyIndex, hs, hv, hip, except_ok_bind, except_pure_eq]
    unfold ApiGateway.api_gateway
    rw [if_neg (by simp), if_neg (by simp), htry]
    exact handle_cors_status _ _
  · intro ipUrl mgUrl origin fs s v ipPost mgPost a adv err2 hs hmem hv htr hip hmg
    have hval := validate_gw_pass fs s v hs hmem hv htr
    have htry : ApiGateway.api_gateway_try ipUrl mgUrl ⟨"POST", origin, some (.obj fs)⟩
        ipPost mgPost =
        .ok (ApiGateway.handle_cors ⟨"POST", origin, some (.obj fs)⟩
          ⟨502, ApiGateway.jsonError err2, []⟩) := by
      unfold ApiGateway.api_gateway_try
      simp [hval, Json.pyIndex, hs, hv, hip, hmg, except_ok_bind, except_pure_eq]
    constructor
    · unfold ApiGateway.api_gateway
      rw [if_neg (by simp), if_neg (by simp), htry]
      exact handle_cors_status _ _
    · unfold ApiGateway.api_gateway
      rw [if_neg (by simp), if_neg (by simp), htry]
      exact handle_cors_body _ _
  · intro ipUrl mgUrl origin fs s v ipPost mgPost a advice hs hmem hv htr hip hmg
    have hval := validate_gw_pass fs s v hs hmem hv htr
    have htry : ApiGateway.api_gateway_try ipUrl mgUrl ⟨"POST", origin, some (.obj fs)⟩
        ipPost mgPost =
        .ok (ApiGateway.handle_cors ⟨"POST", origin, some (.obj fs)⟩
          ⟨200, .obj [("success", .bool true), ("advice", advice)], []⟩) := by
      unfold ApiGateway.api_gateway_try
      simp [hval, Json.pyIndex, hs, hv, hip, hmg, except_ok_bind, except_pure_eq]
    constructor
    · unfold ApiGateway.api_gateway
      rw [if_neg (by simp), if_neg (by simp), htry]
      exact handle_cors_status _ _
    · unfold ApiGateway.api_gateway
      rw [if_neg (by simp), if_neg (by simp), htry]
      exact handle_cors_body _ _
  · intro ipUrl mgUrl origin body ipPost mgPost e htry
    unfold ApiGateway.api_gateway
    rw [if_neg (by simp), if_neg (by simp), htry]
    exact handle_cors_status _ _

/-- C1 witness: each conditional clause of `C1_api_gateway_status_map` at a
concrete request. -/
theorem C1_api_gateway_status_map_witness :
    (ApiGateway.api_gateway "u1" "u2" ⟨"GET", none, none⟩ (.exn "x") (.exn "x")).status
      = 405 ∧
    (ApiGateway.api_gateway "u1" "u2" ⟨"POST", none, some (.obj [])⟩ (.exn "x")
      (.exn "x")).status = 400 ∧
    (ApiGateway.api_gateway "u1" "u2"
      ⟨"POST", none, some (.obj [("scenario", .str "plant"), ("image_data", .str "x")])⟩
      (.resp 500 "boom" .null) (.exn "x")).status = 502 ∧
    (ApiGateway.api_gateway "u1" "u2"
      ⟨"POST", none, some (.obj [("scenario", .str "plant"), ("image_data", .str "x")])⟩
      (.resp 200 "" (.obj [("success", .bool true), ("data", .obj [])]))
      (.resp 200 "" (.obj [("success", .bool false), ("error", .str "denied")]))).status
      = 502 ∧
    (ApiGateway.api_gateway "u1" "u2"
      ⟨"POST", none, some (.obj [("scenario", .str "plant"), ("image_data", .str "x")])⟩
      (.resp 200 "" (.obj [("success", .bool true), ("data", .obj [])]))
      (.resp 200 "" (.obj [("success", .bool true), ("advice", .str "A")]))).status = 200 ∧
    (ApiGateway.api_gateway "u1" "u2" ⟨"POST", none, some (.arr [.str "scenario"])⟩
      (.exn "x") (.exn "x")).status = 500 := by
  refine ⟨?_, ?_, ?_, ?_, ?_, ?_⟩
  · exact C1_api_gateway_status_map.2.1 "u1" "u2" "GET" none none (.exn "x") (.exn "x")
      (by decide) (by decide)
  · exact C1_api_gateway_status_map.2.2.1 "u1" "u2" none (some (.obj [])) (.exn "x")
      (.exn "x") "Request body is empty" rfl
  · exact C1_api_gateway_status_map.2.2.2.1 "u1" "u2" none
      [("scenario", .str "plant"), ("image_data", .str "x")] "plant" (.str "x")
      (.resp 500 "boom" .null) (.exn "x") (.obj [])
      (some ("Image processor error: " ++ "boom")) rfl (by decide) rfl (by decide) rfl
  · exact (C1_api_gateway_status_map.2.2.2.2.1 "u1" "u2" none
      [("scenario", .str "plant"), ("image_data", .str "x")] "plant" (.str "x")
      (.resp 200 "" (.obj [("success", .bool true), ("data", .obj [])]))
      (.resp 200 "" (.obj [("success", .bool false), ("error", .str "denied")]))
      (.obj []) (.str "")
      (some ("Message generator error: " ++ "denied")) rfl (by decide) rfl (by decide)
      rfl rfl).1
  · exact (C1_api_gateway_status_map.2.2.2.2.2.1 "u1" "u2" none
      [("scenario", .str "plant"), ("image_data", .str "x")] "plant" (.str "x")
      (.resp 200 "" (.obj [("success", .bool true), ("data", .obj [])]))
      (.resp 200 "" (.obj [("success", .bool true), ("advice", .str "A")]))
      (.obj []) (.str "A") rfl (by decide) rfl (by decide) rfl rfl).1
  · exact C1_api_gateway_status_map.2.2.2.2.2.2 "u1" "u2" none (some (.arr [.str "scenario"]))
      (.exn "x") (.exn "x") (.typeError "list indices must be integers or slices, not str")
      rfl

end SimpleReactCam
